import Mathlib

/-!
Verification development for the service access layer, resilience primitives
and job queue of the `azure_ai_invoice_generator` repository
(`service_manager.py`, `components/invoice_queue.py`).

Modelling conventions, used consistently below:

* Time instants are modelled as integers (`Int`). The source uses float
  seconds (`datetime.now().timestamp()` and `total_seconds()`), but it only
  ever adds, subtracts and compares instants, so the order-theoretic content
  is unchanged; float rounding is not modelled.
* Backoff delay values (which the source computes as floats such as
  `base_delay * (1.5 ** attempt)`) are modelled as exact rationals (`Rat`).
  They are recorded in the event trace and never truncated.
* Python `dict`s are modelled as insertion-ordered association lists
  (`PyDict`), matching CPython's guaranteed iteration order, with
  first-match lookup (keys are unique in reachable states).
* Python values (`None`, lists, dicts, strings, numbers) are modelled by the
  inductive type `Val`; Python truthiness by `truthy`.
* String manipulation is implemented over `List Char`
  (`String.data`) with the exact semantics of the Python string operations
  used by the source: `split("_")[0]`, `startswith`, substring containment
  (`in`), `lower()` (ASCII, the only case exercised), `replace(" ", "_")`.
-/

/-! ## Python string primitives -/

/-- Python list-of-chars prefix test: `p` is a prefix of `l`. -/
def isPrefixL : List Char → List Char → Bool
  | [], _ => true
  | _ :: _, [] => false
  | a :: as, b :: bs => a == b && isPrefixL as bs

/-- Python substring containment (`p in l`) over char lists. -/
def isSubstrL (p : List Char) : List Char → Bool
  | [] => p.isEmpty
  | c :: cs => isPrefixL p (c :: cs) || isSubstrL p cs

/-- Python `s.startswith(p)`. -/
def pyStartsWith (s p : String) : Bool := isPrefixL p.data s.data

/-- Python `p in s` (substring containment). -/
def pyContains (s p : String) : Bool := isSubstrL p.data s.data

/-- Characters strictly before the first `'_'` (the whole list if none). -/
def splitHeadL : List Char → List Char
  | [] => []
  | c :: cs => if c == '_' then [] else c :: splitHeadL cs

/-- Python `s.split("_")[0]`. -/
def splitHead (s : String) : String := ⟨splitHeadL s.data⟩

/-- Python `s.lower()` (ASCII case, the only case exercised by the source). -/
def pyLower (s : String) : String := ⟨s.data.map Char.toLower⟩

/-! ## Python values and truthiness -/

/-- A Python value as used by the service layer: `None`, booleans, integers,
numbers, strings, lists, dicts. -/
inductive Val where
  | none
  | bool (b : Bool)
  | int (n : Int)
  | num (q : Rat)
  | str (s : String)
  | list (xs : List Val)
  | dict (kvs : List (String × Val))

/-- Python truthiness: `None`, `False`, `0`, `""`, `[]`, `{}` are falsy. -/
def truthy : Val → Bool
  | .none => false
  | .bool b => b
  | .int n => n != 0
  | .num q => q != 0
  | .str s => !s.data.isEmpty
  | .list xs => !xs.isEmpty
  | .dict kvs => !kvs.isEmpty

/-- Python truthiness of an optional string (`None` and `""` are falsy). -/
def truthyOptStr : Option String → Bool
  | Option.none => false
  | Option.some s => !s.data.isEmpty

/-! ## Python dicts (insertion-ordered association lists) -/

/-- A Python `dict` with string keys: insertion-ordered association list. -/
def PyDict (α : Type) : Type := List (String × α)

namespace PyDict

/-- The empty dict `{}`. -/
def empty {α : Type} : PyDict α := []

/-- Python `d.get(k)` / `d[k]`  (first match; keys are unique in reachable
states). -/
def get {α : Type} : PyDict α → String → Option α
  | [], _ => Option.none
  | (k, v) :: rest, key => if k = key then Option.some v else get rest key

/-- Python `d.get(k, default)`. -/
def getD {α : Type} (d : PyDict α) (key : String) (dflt : α) : α :=
  (d.get key).getD dflt

/-- Python `k in d`. -/
def hasKey {α : Type} (d : PyDict α) (key : String) : Bool :=
  (d.get key).isSome

/-- Python `d[k] = v`: update in place if the key exists, else append
(preserving CPython insertion order). -/
def set {α : Type} : PyDict α → String → α → PyDict α
  | [], key, v => [(key, v)]
  | (k, w) :: rest, key, v =>
    if k = key then (k, v) :: rest else (k, w) :: set rest key v

/-- Python `d.pop(k, None)`: remove the key if present. -/
def pop {α : Type} : PyDict α → String → PyDict α
  | [], _ => []
  | (k, w) :: rest, key => if k = key then rest else (k, w) :: pop rest key

/-- Python `d.keys()` (in insertion order). -/
def keys {α : Type} (d : PyDict α) : List String := d.map Prod.fst

end PyDict

/-! ## Cache store (`ServiceManager._initialize_cache` and friends,
`service_manager.py` lines 328-593) -/

/-- The cache-related state of `ServiceManager`: the five per-key dicts plus
the `cache_stats` counters (a Python dict with fixed keys, modelled as
fields). -/
structure CacheState where
  cache : PyDict Val
  cache_timestamps : PyDict Int
  cache_access_count : PyDict Nat
  cache_hit_count : PyDict Nat
  cache_miss_count : PyDict Nat
  stats_total_requests : Nat
  stats_cache_hits : Nat
  stats_cache_misses : Nat
  stats_evictions : Nat
  stats_cleanup_runs : Nat

/-- The state right after `_initialize_cache`. -/
def initCacheState : CacheState :=
  { cache := PyDict.empty
    cache_timestamps := PyDict.empty
    cache_access_count := PyDict.empty
    cache_hit_count := PyDict.empty
    cache_miss_count := PyDict.empty
    stats_total_requests := 0
    stats_cache_hits := 0
    stats_cache_misses := 0
    stats_evictions := 0
    stats_cleanup_runs := 0 }

/-- `self.cache_ttl` (seconds), verbatim from `_initialize_cache`. -/
def cache_ttl : PyDict Int :=
  [("statistics", 300), ("invoice_list", 180), ("search_results", 120),
   ("invoice_detail", 600), ("client_data", 900), ("agent_config", 3600),
   ("service_status", 60)]

/-- `self.cache_max_size`, verbatim from `_initialize_cache`. -/
def cache_max_size : PyDict Nat :=
  [("statistics", 10), ("invoice_list", 20), ("search_results", 50),
   ("invoice_detail", 100), ("client_data", 200), ("agent_config", 5),
   ("service_status", 5)]

/-- The TTL the code actually applies to a key:
`self.cache_ttl.get(cache_key.split("_")[0], 300)`. -/
def ttlFor (cache_key : String) : Int :=
  cache_ttl.getD (splitHead cache_key) 300

/-- `_is_cache_valid` (lines 505-513). -/
def is_cache_valid (st : CacheState) (now : Int) (cache_key : String) : Bool :=
  match st.cache_timestamps.get cache_key with
  | Option.none => false
  | Option.some ts => now - ts < ttlFor cache_key

/-- `_get_from_cache` (lines 515-535). Returns the Python return value
(`None` on a miss — note a stored `None` is indistinguishable from a miss,
exactly as in the source) together with the updated state. The source bumps
`total_requests` before branching on validity (which the bump cannot
affect); the bump is written into both branches here, the same function. -/
def get_from_cache (st : CacheState) (now : Int) (cache_key : String) :
    Val × CacheState :=
  if is_cache_valid st now cache_key then
    (st.cache.getD cache_key Val.none,
     { st with
       stats_total_requests := st.stats_total_requests + 1
       cache_access_count :=
         st.cache_access_count.set cache_key
           (st.cache_access_count.getD cache_key 0 + 1)
       cache_hit_count :=
         st.cache_hit_count.set cache_key
           (st.cache_hit_count.getD cache_key 0 + 1)
       stats_cache_hits := st.stats_cache_hits + 1
       cache_timestamps := st.cache_timestamps.set cache_key now })
  else
    (Val.none,
     { st with
       stats_total_requests := st.stats_total_requests + 1
       cache_miss_count :=
         st.cache_miss_count.set cache_key
           (st.cache_miss_count.getD cache_key 0 + 1)
       stats_cache_misses := st.stats_cache_misses + 1 })

/-- `_remove_cache_entry` (lines 573-579). -/
def remove_cache_entry (st : CacheState) (cache_key : String) : CacheState :=
  { st with
    cache := st.cache.pop cache_key
    cache_timestamps := st.cache_timestamps.pop cache_key
    cache_access_count := st.cache_access_count.pop cache_key
    cache_hit_count := st.cache_hit_count.pop cache_key
    cache_miss_count := st.cache_miss_count.pop cache_key }

/-- Stable insertion (by second component, ascending) — mirrors the
stability of Python's `list.sort(key=lambda x: x[1])`. -/
def insertByTs (x : String × Int) : List (String × Int) → List (String × Int)
  | [] => [x]
  | y :: ys => if y.2 ≤ x.2 then y :: insertByTs x ys else x :: y :: ys

/-- Stable sort by timestamp, ascending (oldest first), as in
`type_items.sort(key=lambda x: x[1])`. -/
def sortByTs (l : List (String × Int)) : List (String × Int) :=
  l.foldl (fun acc x => insertByTs x acc) []

/-- `_evict_lru_items` (lines 555-571): collect the `(key, timestamp)` pairs
of every cached key starting with `cache_type`, sort oldest first, and
remove the first `count` of them. -/
def evict_lru_items (st : CacheState) (cache_type : String) (count : Nat) :
    CacheState :=
  let type_items :=
    (st.cache.keys.filter (fun k => pyStartsWith k cache_type)).map
      (fun k => (k, st.cache_timestamps.getD k 0))
  let sorted := sortByTs type_items
  (sorted.take count).foldl
    (fun st kv =>
      let st := remove_cache_entry st kv.1
      { st with stats_evictions := st.stats_evictions + 1 })
    st

/-- `_set_cache` (lines 537-553). -/
def set_cache (st : CacheState) (now : Int) (cache_key : String) (data : Val) :
    CacheState :=
  let cache_type := splitHead cache_key
  let max_size := cache_max_size.getD cache_type 50
  let current_items :=
    st.cache.keys.filter (fun k => pyStartsWith k cache_type)
  let st :=
    if current_items.length ≥ max_size then
      evict_lru_items st cache_type (current_items.length - max_size + 1)
    else st
  { st with
    cache := st.cache.set cache_key data
    cache_timestamps := st.cache_timestamps.set cache_key now
    cache_access_count := st.cache_access_count.set cache_key 1
    cache_hit_count := st.cache_hit_count.set cache_key 0
    cache_miss_count := st.cache_miss_count.set cache_key 0 }

/-- `_clear_cache(pattern)` with a non-`None` pattern (lines 581-586):
remove every key containing the pattern as a substring. -/
def clear_cache_pattern (st : CacheState) (pat : String) : CacheState :=
  let keys_to_remove := st.cache.keys.filter (fun k => pyContains k pat)
  keys_to_remove.foldl remove_cache_entry st

/-! ## Service-manager read and write operations (`service_manager.py`
lines 636-972).

External dependencies (Cosmos DB, Azure Search, the service-status probe,
`hashlib.md5`) are not repository code; each operation takes the
availability flags and the would-be backend responses as parameters.
A backend call that would raise is passed as `Except.error`. -/

/-- `get_cache_statistics` (lines 636-668). The float `round(hit_rate, 2)`
is kept as the exact rational (no claim depends on the rounding). -/
def get_cache_statistics (st : CacheState) : Val :=
  let total_requests := st.stats_total_requests
  let hit_rate : Rat :=
    if total_requests > 0 then
      (st.stats_cache_hits : Rat) / (total_requests : Rat) * 100
    else 0
  let cache_sizes :=
    cache_ttl.keys.map (fun cache_type =>
      (cache_type,
       Val.int
         ((st.cache.keys.filter (fun k => pyStartsWith k cache_type)).length)))
  Val.dict
    [("performance", Val.dict
        [("total_requests", Val.int total_requests),
         ("cache_hits", Val.int st.stats_cache_hits),
         ("cache_misses", Val.int st.stats_cache_misses),
         ("hit_rate_percent", Val.num hit_rate),
         ("evictions", Val.int st.stats_evictions),
         ("cleanup_runs", Val.int st.stats_cleanup_runs)]),
     ("cache_sizes", Val.dict cache_sizes),
     ("total_cached_items", Val.int st.cache.length),
     ("memory_usage", Val.dict
        [("cache_entries", Val.int st.cache.length),
         ("timestamp_entries", Val.int st.cache_timestamps.length),
         ("access_count_entries", Val.int st.cache_access_count.length)])]

/-- The degraded statistics dict returned when Cosmos DB is unavailable
(lines 681-687; the float `0.0` is modelled as `Val.int 0`). -/
def degradedStats : Val :=
  Val.dict
    [("total_invoices", Val.int 0),
     ("status_breakdown", Val.list []),
     ("total_outstanding_amount", Val.int 0),
     ("error", Val.str "CosmosDB service not available")]

/-- `get_statistics` (lines 671-692). `cosmos_avail` bundles
`self.services_available["cosmos"] and self.cosmos_service`;
`backendStats` is what `self.cosmos_service.get_invoice_statistics()`
would return. -/
def get_statistics (st : CacheState) (now : Int) (force_refresh : Bool)
    (cosmos_avail : Bool) (backendStats : Val) : Val × CacheState :=
  let cache_key := "statistics_main"
  let hit :=
    if force_refresh then Option.none
    else
      let (cached, st1) := get_from_cache st now cache_key
      if truthy cached then Option.some (cached, st1) else Option.none
  match hit with
  | Option.some r => r
  | Option.none =>
    let st1 := if force_refresh then st else (get_from_cache st now cache_key).2
    if !cosmos_avail then (degradedStats, st1)
    else (backendStats, set_cache st1 now cache_key backendStats)

/-- `list_invoices` (lines 773-789). `backendInvoices` is what
`self.cosmos_service.list_invoices(limit)` would return. -/
def list_invoices (st : CacheState) (now : Int) (limit : Nat)
    (force_refresh : Bool) (cosmos_avail : Bool)
    (backendInvoices : List Val) : Val × CacheState :=
  let cache_key := "invoice_list_" ++ toString limit
  let hit :=
    if force_refresh then Option.none
    else
      let (cached, st1) := get_from_cache st now cache_key
      if truthy cached then Option.some (cached, st1) else Option.none
  match hit with
  | Option.some r => r
  | Option.none =>
    let st1 := if force_refresh then st else (get_from_cache st now cache_key).2
    if !cosmos_avail then (Val.list [], st1)
    else
      (Val.list backendInvoices,
       set_cache st1 now cache_key (Val.list backendInvoices))

/-- `search_invoices` (lines 791-825). `md5hex` models
`hashlib.md5(·).hexdigest()` (an external library function) as an opaque
digest; the source then keeps its first 8 characters. `searchOutcome` /
`cosmosOutcome` are the would-be results of
`self.search_service.search_invoices(query)` and
`self.cosmos_service.search_invoices(query)` (`Except.error` = raised). -/
def search_invoices (md5hex : String → String) (st : CacheState) (now : Int)
    (query : String) (force_refresh : Bool)
    (search_avail cosmos_avail : Bool)
    (searchOutcome cosmosOutcome : Except String (List Val)) :
    Val × CacheState :=
  let query_hash := ⟨((md5hex (pyLower query)).data.take 8)⟩
  let cache_key := "search_results_" ++ query_hash
  let hit :=
    if force_refresh then Option.none
    else
      let (cached, st1) := get_from_cache st now cache_key
      if truthy cached then Option.some (cached, st1) else Option.none
  match hit with
  | Option.some r => r
  | Option.none =>
    let st1 := if force_refresh then st else (get_from_cache st now cache_key).2
    let results : List Val := []
    let results :=
      if search_avail then
        match searchOutcome with
        | Except.ok r => r
        | Except.error _ => results
      else results
    let results :=
      if results.isEmpty && cosmos_avail then
        match cosmosOutcome with
        | Except.ok r => r
        | Except.error _ => results
      else results
    (Val.list results, set_cache st1 now cache_key (Val.list results))

/-- `get_invoice` (lines 827-847). `backendInvoice` is what
`self.cosmos_service.get_invoice(invoice_number)` would return (possibly
`None`, which the source caches too). -/
def get_invoice (st : CacheState) (now : Int) (invoice_number : String)
    (force_refresh : Bool) (cosmos_avail : Bool) (backendInvoice : Val) :
    Val × CacheState :=
  let cache_key := "invoice_detail_" ++ invoice_number
  let hit :=
    if force_refresh then Option.none
    else
      let (cached, st1) := get_from_cache st now cache_key
      if truthy cached then Option.some (cached, st1) else Option.none
  match hit with
  | Option.some r => r
  | Option.none =>
    let st1 := if force_refresh then st else (get_from_cache st now cache_key).2
    if !cosmos_avail then (Val.none, st1)
    else (backendInvoice, set_cache st1 now cache_key backendInvoice)

/-- Python `d.get(key, default)` on a `Val` that should be a dict (the
source would raise `AttributeError` on a non-dict; only dict-shaped values
reach these accesses). -/
def vgetD (v : Val) (key : String) (dflt : Val) : Val :=
  match v with
  | Val.dict kvs => (PyDict.get kvs key).getD dflt
  | _ => dflt

/-- The string content of a `Val` (the source only applies `.lower()` to
string-shaped values). -/
def vstr : Val → String
  | Val.str s => s
  | _ => ""

/-- The element list of a `Val` (the source only iterates list-shaped
values). -/
def velems : Val → List Val
  | Val.list xs => xs
  | _ => []

/-- Client-key normalization from `get_client_invoices` and `save_invoice`:
`client_name.lower().replace(" ", "_")`. -/
def normalizeClientKey (client_name : String) : String :=
  ⟨(pyLower client_name).data.map (fun c => if c == ' ' then '_' else c)⟩

/-- `get_client_invoices` (lines 849-876). The inner
`self.search_invoices(client_name)` call (with its default
`force_refresh=False`) is modelled by composition with `search_invoices`. -/
def get_client_invoices (md5hex : String → String) (st : CacheState)
    (now : Int) (client_name : String) (force_refresh : Bool)
    (search_avail cosmos_avail : Bool)
    (searchOutcome cosmosOutcome : Except String (List Val)) :
    Val × CacheState :=
  let client_key := normalizeClientKey client_name
  let cache_key := "client_data_" ++ client_key
  let hit :=
    if force_refresh then Option.none
    else
      let (cached, st1) := get_from_cache st now cache_key
      if truthy cached then Option.some (cached, st1) else Option.none
  match hit with
  | Option.some r => r
  | Option.none =>
    let st1 := if force_refresh then st else (get_from_cache st now cache_key).2
    let (res, st2) :=
      search_invoices md5hex st1 now client_name false search_avail
        cosmos_avail searchOutcome cosmosOutcome
    let client_invoices :=
      (velems res).filter (fun invoice =>
        let invoice_client :=
          vstr (vgetD (vgetD (vgetD invoice "invoice_data" (Val.dict []))
            "client" (Val.dict [])) "name" (Val.str ""))
        pyLower invoice_client = pyLower client_name)
    (Val.list client_invoices,
     set_cache st2 now cache_key (Val.list client_invoices))

/-- `get_service_status_cached` (lines 878-893). `statusVal` is what
`self.get_service_status()` would return; the source then adds the
`cache_statistics` entry before caching. -/
def get_service_status_cached (st : CacheState) (now : Int)
    (force_refresh : Bool) (statusVal : PyDict Val) : Val × CacheState :=
  let cache_key := "service_status_main"
  let hit :=
    if force_refresh then Option.none
    else
      let (cached, st1) := get_from_cache st now cache_key
      if truthy cached then Option.some (cached, st1) else Option.none
  match hit with
  | Option.some r => r
  | Option.none =>
    let st1 := if force_refresh then st else (get_from_cache st now cache_key).2
    let status :=
      Val.dict (statusVal.set "cache_statistics" (get_cache_statistics st1))
    (status, set_cache st1 now cache_key status)

/-- Result record of `save_invoice` (lines 897-901). -/
structure SaveResult where
  cosmos_saved : Bool
  search_indexed : Bool
  storage_warnings : List String

/-- The "intelligent cache invalidation" block of `save_invoice`
(lines 921-939), run when the Cosmos DB save reported `True`. -/
def save_invalidate (st : CacheState) (invoice_number : Option String)
    (client_name : String) : CacheState :=
  let st := clear_cache_pattern st "statistics"
  let st := clear_cache_pattern st "invoice_list"
  let st :=
    if truthyOptStr invoice_number then
      remove_cache_entry st ("invoice_detail_" ++ invoice_number.getD "")
    else st
  if !client_name.data.isEmpty then
    remove_cache_entry st ("client_data_" ++ normalizeClientKey client_name)
  else st

/-- `save_invoice` (lines 895-941). `cosmosOutcome` is the would-be result
of `self.cosmos_service.save_invoice(invoice_data)` (`Except.error` =
raised), similarly `searchOutcome` for `index_invoice`. `invoice_number`
and `client_name` are `invoice_data.get("invoice_number")` and
`invoice_data.get("client", {}).get("name", "")`. -/
def save_invoice (st : CacheState) (cosmos_avail : Bool)
    (cosmosOutcome : Except String Bool) (search_avail : Bool)
    (searchOutcome : Except String Bool) (invoice_number : Option String)
    (client_name : String) : SaveResult × CacheState :=
  let (cosmos_saved, warn1) :=
    if cosmos_avail then
      match cosmosOutcome with
      | Except.ok b => (b, [])
      | Except.error _ => (false, ["Failed to save to CosmosDB"])
    else (false, [])
  let (search_indexed, warn2) :=
    if search_avail then
      match searchOutcome with
      | Except.ok b => (b, [])
      | Except.error _ => (false, ["Failed to index in Azure Search"])
    else (false, [])
  let result : SaveResult :=
    { cosmos_saved := cosmos_saved
      search_indexed := search_indexed
      storage_warnings := warn1 ++ warn2 }
  if cosmos_saved then (result, save_invalidate st invoice_number client_name)
  else (result, st)

/-- The cache-invalidation block of `update_invoice_status`
(lines 955-970), run on success: clear `statistics`, drop the affected
`invoice_detail` entry, drop every key starting with `search_results`. -/
def update_invalidate (st : CacheState) (invoice_number : String) :
    CacheState :=
  let st := clear_cache_pattern st "statistics"
  let st := remove_cache_entry st ("invoice_detail_" ++ invoice_number)
  let search_keys :=
    st.cache.keys.filter (fun k => pyStartsWith k "search_results")
  search_keys.foldl remove_cache_entry st

/-- `update_invoice_status` (lines 943-972). `updateOk` is the would-be
result of `self.cosmos_service.update_invoice_status(...)`. -/
def update_invoice_status (st : CacheState) (cosmos_avail : Bool)
    (updateOk : Bool) (invoice_number : String) : Bool × CacheState :=
  let success := cosmos_avail && updateOk
  if success then (true, update_invalidate st invoice_number)
  else (false, st)

/-! ## Circuit breaker (`service_manager.py` lines 156-208) -/

/-- The three breaker states (`self.state` strings in the source). -/
inductive CBState where
  | closed
  | open
  | halfOpen
  deriving DecidableEq

/-- `CircuitBreaker.__init__` state (defaults 5 / 60 / 3). Each `datetime`
reading is passed in explicitly as an integer instant. -/
structure CircuitBreaker where
  failure_threshold : Nat := 5
  recovery_timeout : Int := 60
  half_open_max_calls : Nat := 3
  failure_count : Nat := 0
  last_failure_time : Option Int := Option.none
  state : CBState := CBState.closed
  half_open_calls : Nat := 0
  deriving DecidableEq

/-- A fresh `CircuitBreaker()` with default parameters. -/
def CircuitBreaker.init : CircuitBreaker := {}

/-- `_should_attempt_reset` (lines 202-208). -/
def should_attempt_reset (cb : CircuitBreaker) (now : Int) : Bool :=
  match cb.last_failure_time with
  | Option.none => true
  | Option.some t => now - t > cb.recovery_timeout

/-- `can_execute` (lines 169-182): returns the decision and the updated
breaker (the `OPEN → HALF_OPEN` transition mutates it). -/
def can_execute (cb : CircuitBreaker) (now : Int) : Bool × CircuitBreaker :=
  match cb.state with
  | CBState.closed => (true, cb)
  | CBState.open =>
    if should_attempt_reset cb now then
      (true, { cb with state := CBState.halfOpen, half_open_calls := 0 })
    else (false, cb)
  | CBState.halfOpen => (cb.half_open_calls < cb.half_open_max_calls, cb)

/-- `record_success` (lines 184-192). -/
def record_success (cb : CircuitBreaker) : CircuitBreaker :=
  match cb.state with
  | CBState.halfOpen =>
    let cb := { cb with half_open_calls := cb.half_open_calls + 1 }
    if cb.half_open_calls ≥ cb.half_open_max_calls then
      { cb with state := CBState.closed, failure_count := 0 }
    else cb
  | CBState.closed =>
    { cb with failure_count := cb.failure_count - 1 }
  | CBState.open => cb

/-- `record_failure` (lines 194-200). -/
def record_failure (cb : CircuitBreaker) (now : Int) : CircuitBreaker :=
  let cb :=
    { cb with failure_count := cb.failure_count + 1
              last_failure_time := Option.some now }
  if cb.failure_count ≥ cb.failure_threshold then
    { cb with state := CBState.open }
  else cb

/-- The breaker states reachable from `CircuitBreaker()` through its three
public methods, each observed at an arbitrary instant. -/
inductive CBReachable : CircuitBreaker → Prop where
  | init : CBReachable CircuitBreaker.init
  | canExecute (cb : CircuitBreaker) (now : Int) :
      CBReachable cb → CBReachable (can_execute cb now).2
  | recSuccess (cb : CircuitBreaker) :
      CBReachable cb → CBReachable (record_success cb)
  | recFailure (cb : CircuitBreaker) (now : Int) :
      CBReachable cb → CBReachable (record_failure cb now)

/-! ## Adaptive rate limiter (`service_manager.py` lines 211-264) -/

/-- `AdaptiveRateLimiter.__init__` state; `t0` is the construction instant
(`self.window_start = datetime.now()`). -/
structure AdaptiveRateLimiter where
  requests_per_minute : Nat
  last_request_time : Option Int
  request_count : Nat
  window_start : Int
  consecutive_successes : Nat
  consecutive_rate_limits : Nat
  deriving DecidableEq

/-- A fresh `AdaptiveRateLimiter()` built at instant `t0`. -/
def AdaptiveRateLimiter.init (t0 : Int) : AdaptiveRateLimiter :=
  { requests_per_minute := 60
    last_request_time := Option.none
    request_count := 0
    window_start := t0
    consecutive_successes := 0
    consecutive_rate_limits := 0 }

/-- `can_proceed` (lines 222-231): decision plus updated limiter (the
window reset mutates it). -/
def can_proceed (rl : AdaptiveRateLimiter) (now : Int) :
    Bool × AdaptiveRateLimiter :=
  let rl :=
    if now - rl.window_start ≥ 60 then
      { rl with request_count := 0, window_start := now }
    else rl
  (rl.request_count < rl.requests_per_minute, rl)

/-- `AdaptiveRateLimiter.record_success` (lines 233-243). -/
def rl_record_success (rl : AdaptiveRateLimiter) (now : Int) :
    AdaptiveRateLimiter :=
  let rl :=
    { rl with request_count := rl.request_count + 1
              last_request_time := Option.some now
              consecutive_successes := rl.consecutive_successes + 1
              consecutive_rate_limits := 0 }
  if rl.consecutive_successes ≥ 10 then
    { rl with requests_per_minute := min 120 (rl.requests_per_minute + 5)
              consecutive_successes := 0 }
  else rl

/-- `record_rate_limit` (lines 245-252). `requests_per_minute` is a `Nat`;
`max(10, rpm - reduction)` coincides with the Python value because the
result is clamped to at least 10 either way. -/
def record_rate_limit (rl : AdaptiveRateLimiter) : AdaptiveRateLimiter :=
  let rl :=
    { rl with consecutive_rate_limits := rl.consecutive_rate_limits + 1
              consecutive_successes := 0 }
  let reduction := min 20 (rl.consecutive_rate_limits * 5)
  { rl with requests_per_minute := max 10 (rl.requests_per_minute - reduction) }

/-- `get_delay` (lines 254-264), exact rational value. -/
def get_delay (rl : AdaptiveRateLimiter) (now : Int) : Rat :=
  match rl.last_request_time with
  | Option.none => 0
  | Option.some t =>
    let time_since_last : Rat := ((now - t : Int) : Rat)
    let min_interval : Rat := 60 / (rl.requests_per_minute : Rat)
    if time_since_last < min_interval then min_interval - time_since_last
    else 0

/-- The limiter states reachable from `AdaptiveRateLimiter()` through its
public methods at arbitrary instants. -/
inductive RLReachable : AdaptiveRateLimiter → Prop where
  | init (t0 : Int) : RLReachable (AdaptiveRateLimiter.init t0)
  | canProceed (rl : AdaptiveRateLimiter) (now : Int) :
      RLReachable rl → RLReachable (can_proceed rl now).2
  | recSuccess (rl : AdaptiveRateLimiter) (now : Int) :
      RLReachable rl → RLReachable (rl_record_success rl now)
  | recRateLimit (rl : AdaptiveRateLimiter) :
      RLReachable rl → RLReachable (record_rate_limit rl)

/-! ## Error classification and the retry wrapper
(`service_manager.py` lines 37-153) -/

/-- The keyword lists of `_classify_error` (lines 116-153), verbatim. -/
def rateLimitKeywords : List String :=
  ["rate limit", "too many requests", "quota exceeded", "throttled"]

def transientKeywords : List String :=
  ["timeout", "connection", "network", "temporary", "service unavailable"]

def permanentKeywords : List String :=
  ["authentication", "authorization", "forbidden", "not found", "invalid"]

/-- `any(keyword in error_str for keyword in kws)`. -/
def containsAnyKeyword (error_str : String) (kws : List String) : Bool :=
  kws.any (fun kw => pyContains error_str kw)

/-- `_classify_error` (lines 116-153): keyword match on the lowercased
message. -/
def classify_error (msg : String) : String :=
  let error_str := pyLower msg
  if containsAnyKeyword error_str rateLimitKeywords then "rate_limit"
  else if containsAnyKeyword error_str transientKeywords then "transient"
  else if containsAnyKeyword error_str permanentKeywords then "permanent"
  else "unknown"

/-- The message of the exception raised when the breaker disallows an
attempt (lines 49-51). -/
def circuitBreakerMsg : String :=
  "Circuit breaker is open - service temporarily unavailable"

/-- Observable events of one `with_retry` run, tagged with the attempt
index. `invoked a k` records that the wrapped function's `k`-th actual
invocation happened on attempt `a`; `recFailure`/`recSuccess` are the
breaker's `record_failure()`/`record_success()` calls. Delays are the exact
values of the source's backoff formulas. -/
inductive REvent where
  | denied (attempt : Nat)
  | invoked (attempt k : Nat)
  | recSuccess (attempt : Nat)
  | recFailure (attempt : Nat)
  | sleptRateWait (attempt : Nat) (d : Rat)
  | sleptRateLimit (attempt : Nat) (d : Rat)
  | sleptTransient (attempt : Nat) (d : Rat)
  | sleptDefault (attempt : Nat) (d : Rat)
  deriving DecidableEq

/-- Mutable state threaded through a `with_retry` run: the handler's two
primitives plus the count of actual invocations of the wrapped function. -/
structure RunState where
  breaker : CircuitBreaker
  limiter : AdaptiveRateLimiter
  invocations : Nat

/-- One run of the `with_retry` wrapper body (lines 42-110).

* `outcomes k` is the result of the `k`-th actual invocation of the wrapped
  function (`Except.error msg` = it raised with message `msg`).
* `jitter a` is the `random.uniform(0, 1)` sample of attempt `a`.
* `times a` is the wall-clock instant at which attempt `a` runs (every
  `datetime.now()` of attempt `a` reads this instant; making it a parameter
  subsumes the time the sleeps and the wrapped call consume).
* The result is `Except.error last_exception` when all attempts are
  exhausted or a permanent error aborts (`none` = Python's
  `last_exception` is still `None`, only possible when `max_retries = 0`).

The recursion is on the number of remaining attempts;
`attempt = max_retries - fuel` as in `for attempt in range(max_retries)`. -/
def handleException (jitter : Nat → Rat) (base_delay max_delay : Rat)
    (attempt : Nat) (now : Int) (st : RunState) (msg : String) :
    RunState × List REvent × Bool :=
  let error_type := classify_error msg
  let st := { st with breaker := record_failure st.breaker now }
  if error_type = "rate_limit" then
    let delay := min (base_delay * 2 ^ attempt + jitter attempt) max_delay
    let st := { st with limiter := record_rate_limit st.limiter }
    (st, [REvent.recFailure attempt, REvent.sleptRateLimit attempt delay],
     true)
  else if error_type = "transient" then
    let delay := min (base_delay * (attempt + 1 : Nat)) max_delay
    (st, [REvent.recFailure attempt, REvent.sleptTransient attempt delay],
     true)
  else if error_type = "permanent" then
    (st, [REvent.recFailure attempt], false)
  else
    let delay := min (base_delay * (3 / 2 : Rat) ^ attempt) max_delay
    (st, [REvent.recFailure attempt, REvent.sleptDefault attempt delay],
     true)

/-- One attempt of the retry loop: either the wrapper is done (success,
permanent abort), or the loop continues with this attempt's exception as
`last_exception`. -/
inductive AttemptResult where
  | done (r : Except (Option String) Val)
  | next (msg : String)

/-- The body of one iteration of `for attempt in range(max_retries)`
(lines 45-106): breaker check, rate-limit wait, invocation, and the
exception handler. -/
def runAttempt (outcomes : Nat → Except String Val) (jitter : Nat → Rat)
    (times : Nat → Int) (base_delay max_delay : Rat) (attempt : Nat)
    (st : RunState) : AttemptResult × RunState × List REvent :=
  let now := times attempt
  let (allowed, breaker1) := can_execute st.breaker now
  let st := { st with breaker := breaker1 }
  if !allowed then
    -- the raise inside the `try` block falls through to the handler
    let (st2, evts, cont) :=
      handleException jitter base_delay max_delay attempt now st
        circuitBreakerMsg
    if cont then
      (AttemptResult.next circuitBreakerMsg, st2,
       REvent.denied attempt :: evts)
    else
      (AttemptResult.done (Except.error (Option.some circuitBreakerMsg)),
       st2, REvent.denied attempt :: evts)
  else
    let (ok, limiter1) := can_proceed st.limiter now
    let st := { st with limiter := limiter1 }
    let preEvents :=
      if !ok then [REvent.sleptRateWait attempt (get_delay limiter1 now)]
      else []
    let k := st.invocations
    let st := { st with invocations := st.invocations + 1 }
    match outcomes k with
    | Except.ok v =>
      let st :=
        { st with breaker := record_success st.breaker
                  limiter := rl_record_success st.limiter now }
      (AttemptResult.done (Except.ok v), st,
       preEvents ++ [REvent.invoked attempt k, REvent.recSuccess attempt])
    | Except.error msg =>
      let (st2, evts, cont) :=
        handleException jitter base_delay max_delay attempt now st msg
      if cont then
        (AttemptResult.next msg, st2,
         preEvents ++ [REvent.invoked attempt k] ++ evts)
      else
        (AttemptResult.done (Except.error (Option.some msg)), st2,
         preEvents ++ [REvent.invoked attempt k] ++ evts)

/-- The retry loop itself (body of `wrapper`, lines 42-110): run attempts
until one is done or the budget is exhausted (`raise last_exception`).
The recursion is on the remaining attempts;
`attempt = max_retries - fuel`. -/
def retryGo (outcomes : Nat → Except String Val) (jitter : Nat → Rat)
    (times : Nat → Int) (base_delay max_delay : Rat) (attempt : Nat) :
    (fuel : Nat) → RunState → Option String →
    Except (Option String) Val × RunState × List REvent
  | 0, st, lastExc => (Except.error lastExc, st, [])
  | fuel + 1, st, _ =>
    match runAttempt outcomes jitter times base_delay max_delay attempt st
      with
    | (AttemptResult.done r, st2, seg) => (r, st2, seg)
    | (AttemptResult.next msg, st2, seg) =>
      let (r, st3, rest) :=
        retryGo outcomes jitter times base_delay max_delay (attempt + 1)
          fuel st2 (Option.some msg)
      (r, st3, seg ++ rest)

/-- A full `with_retry(max_retries, base_delay, max_delay)` run starting
from run state `st`. -/
def with_retry (outcomes : Nat → Except String Val) (jitter : Nat → Rat)
    (times : Nat → Int) (max_retries : Nat) (base_delay max_delay : Rat)
    (st : RunState) : Except (Option String) Val × RunState × List REvent :=
  retryGo outcomes jitter times base_delay max_delay 0 max_retries st
    Option.none

/-! ## Invoice queue (`components/invoice_queue.py`)

Two storage modes, selected at construction: Redis-backed
(`self.redis_client` set) and the in-memory fallback. The Redis hash
round-trip (`to_dict` → stringification → `hset` / `hgetall` → parse) is
the identity on every field the queue logic reads, so the job store is
modelled as a map in both modes; the crucial semantic difference is kept:
`get_job_status` returns a *fresh copy* in Redis mode but the *stored
object itself* (aliasing) in memory mode. The Redis sorted set (whose
members are JSON envelopes with the job id, scored by priority) is
modelled, like the memory queue, as a list of `(priority, job_id)`
pairs. -/

/-- `JobStatus` (lines 26-32). -/
inductive JobStatus where
  | queued
  | processing
  | completed
  | failed
  | cancelled
  deriving DecidableEq

/-- `InvoiceJob` (lines 35-48), with `datetime` fields as instants. -/
structure InvoiceJob where
  job_id : String
  order_details : Val
  status : JobStatus
  created_at : Int
  started_at : Option Int := Option.none
  completed_at : Option Int := Option.none
  result : Option Val := Option.none
  error : Option String := Option.none
  progress : Rat := 0
  retry_count : Nat := 0
  max_retries : Nat := 3

/-- State of an `InvoiceQueue` instance. `redis_mode` is
`self.redis_client is not None`; `jobs` is the job store (Redis
`job:{id}` hashes / `self._memory_jobs`); `queue` is the priority queue
(Redis `invoice_queue` sorted set / `self._memory_queue`). -/
structure InvoiceQueueState where
  redis_mode : Bool
  jobs : PyDict InvoiceJob
  queue : List (Int × String)

/-- Python tuple comparison `(p, s) ≥ (q, t)` used by
`self._memory_queue.sort(reverse=True)`. -/
def tupleGe (a b : Int × String) : Bool :=
  a.1 > b.1 || (a.1 = b.1 && (b.2 ≤ a.2 : Bool))

/-- Stable descending insertion for `sort(reverse=True)`. -/
def insertDesc (x : Int × String) :
    List (Int × String) → List (Int × String)
  | [] => [x]
  | y :: ys => if tupleGe y x then y :: insertDesc x ys else x :: y :: ys

/-- `self._memory_queue.sort(reverse=True)`: stable descending sort by the
`(priority, job_id)` tuple. -/
def sortQueueDesc (l : List (Int × String)) : List (Int × String) :=
  l.foldl (fun acc x => insertDesc x acc) []

/-- `enqueue_invoice` (lines 113-155); `job_id` is the fresh `uuid4`
value, passed in explicitly. -/
def enqueue_invoice (st : InvoiceQueueState) (job_id : String)
    (order_details : Val) (priority : Int) (now : Int) :
    String × InvoiceQueueState :=
  let job : InvoiceJob :=
    { job_id := job_id, order_details := order_details,
      status := JobStatus.queued, created_at := now }
  let st :=
    if st.redis_mode then
      { st with jobs := st.jobs.set job_id job
                queue := st.queue ++ [(priority, job_id)] }
    else
      { st with jobs := st.jobs.set job_id job
                queue := sortQueueDesc (st.queue ++ [(priority, job_id)]) }
  (job_id, st)

/-- `get_job_status` (lines 157-192). In Redis mode this parses the hash
back into a fresh `InvoiceJob`; in memory mode it returns the stored
object. Both are the stored record value here — the aliasing difference
shows up in `process_job` below. -/
def get_job_status (st : InvoiceQueueState) (job_id : String) :
    Option InvoiceJob :=
  st.jobs.get job_id

/-- `update_job_status` (lines 194-230): re-reads the stored job, applies
the updates, stamps `started_at` / `completed_at`, and writes it back. -/
def update_job_status (st : InvoiceQueueState) (job_id : String)
    (status : JobStatus) (progress : Option Rat) (result : Option Val)
    (error : Option String) (now : Int) : InvoiceQueueState :=
  match get_job_status st job_id with
  | Option.none => st
  | Option.some job =>
    let job := { job with status := status }
    let job :=
      match progress with
      | Option.some p => { job with progress := p }
      | Option.none => job
    let job :=
      match result with
      | Option.some r => { job with result := Option.some r }
      | Option.none => job
    let job :=
      match error with
      | Option.some e => { job with error := Option.some e }
      | Option.none => job
    let job :=
      if status = JobStatus.processing && job.started_at.isNone then
        { job with started_at := Option.some now }
      else if status = JobStatus.completed || status = JobStatus.failed
          || status = JobStatus.cancelled then
        { job with completed_at := Option.some now }
      else job
    { st with jobs := st.jobs.set job_id job }

/-- Remove the first queue entry with the given job id (the Redis branch
of `cancel_job` scans `zrange` and `zrem`s the first match, then breaks). -/
def removeFirstJob (job_id : String) :
    List (Int × String) → List (Int × String)
  | [] => []
  | (p, j) :: rest =>
    if j = job_id then rest else (p, j) :: removeFirstJob job_id rest

/-- `cancel_job` (lines 444-467). -/
def cancel_job (st : InvoiceQueueState) (job_id : String) (now : Int) :
    Bool × InvoiceQueueState :=
  match get_job_status st job_id with
  | Option.none => (false, st)
  | Option.some job =>
    if job.status = JobStatus.queued then
      let st :=
        update_job_status st job_id JobStatus.cancelled Option.none
          Option.none Option.none now
      let st :=
        if st.redis_mode then
          { st with queue := removeFirstJob job_id st.queue }
        else
          { st with queue := st.queue.filter (fun pj => pj.2 ≠ job_id) }
      (true, st)
    else (false, st)

/-- `_get_next_job` (lines 270-289): pop the highest-priority entry (Redis
`zrevrange`); the memory branch pops the head of the descending-sorted
list. Modelled for both modes as the head of the queue, which the memory
branch keeps sorted; no claim depends on Redis tie order. -/
def get_next_job (st : InvoiceQueueState) :
    Option String × InvoiceQueueState :=
  match st.queue with
  | [] => (Option.none, st)
  | (_, job_id) :: rest => (Option.some job_id, { st with queue := rest })

/-- `_process_job` (lines 291-374) for a job whose generation attempt has
the given outcome: `Except.ok (invoice_data, storage_result)` if
`enhanced_ai_generate` succeeded (with the extracted data and the
`save_invoice` result), `Except.error msg` if the `try` block raised at
the generation call (the typical failure point, after the two
`PROCESSING` progress updates).

In the failure branch the source mutates the *local* job object
(`job.retry_count += 1`) and then calls `update_job_status`, which
re-reads the store: in memory mode the local object *is* the stored
object, so the increment is visible; in Redis mode the local object is a
parsed copy and the increment is lost. -/
def process_job (st : InvoiceQueueState) (job_id : String)
    (outcome : Except String (Val × Val)) (now : Int) :
    InvoiceQueueState :=
  match get_job_status st job_id with
  | Option.none => st
  | Option.some _ =>
    let st :=
      update_job_status st job_id JobStatus.processing (Option.some 0)
        Option.none Option.none now
    let st :=
      update_job_status st job_id JobStatus.processing
        (Option.some (2 / 10)) Option.none Option.none now
    match outcome with
    | Except.ok (invoice_data, storage_result) =>
      let st :=
        update_job_status st job_id JobStatus.processing
          (Option.some (6 / 10)) Option.none Option.none now
      let st :=
        update_job_status st job_id JobStatus.processing
          (Option.some (9 / 10)) Option.none Option.none now
      let final_result :=
        Val.dict
          [("success", Val.bool true),
           ("invoice_data", invoice_data),
           ("storage_result", storage_result),
           ("method", Val.str "queue_processed")]
      update_job_status st job_id JobStatus.completed (Option.some 1)
        (Option.some final_result) Option.none now
    | Except.error msg =>
      match get_job_status st job_id with
      | Option.none => st
      | Option.some job =>
        if job.retry_count < job.max_retries then
          -- `job.retry_count += 1` on the local object
          let local_retry_count := job.retry_count + 1
          let st :=
            if st.redis_mode then st
            else
              { st with
                jobs := st.jobs.set job_id
                  { job with retry_count := local_retry_count } }
          let st :=
            update_job_status st job_id JobStatus.queued Option.none
              Option.none Option.none now
          if st.redis_mode then
            { st with
              queue := st.queue ++ [(-(local_retry_count : Int), job_id)] }
          else
            { st with
              queue :=
                sortQueueDesc
                  (st.queue ++ [(-(local_retry_count : Int), job_id)]) }
        else
          update_job_status st job_id JobStatus.failed Option.none
            Option.none (Option.some msg) now

/-! ## Derived notions and concrete scenario states used by the theorems -/

/-- Attempt tag of a retry event. -/
def tagOf : REvent → Nat
  | REvent.denied a => a
  | REvent.invoked a _ => a
  | REvent.recSuccess a => a
  | REvent.recFailure a => a
  | REvent.sleptRateWait a _ => a
  | REvent.sleptRateLimit a _ => a
  | REvent.sleptTransient a _ => a
  | REvent.sleptDefault a _ => a

/-- Is this an actual invocation of the wrapped function? -/
def isInvokedEvt : REvent → Bool
  | REvent.invoked _ _ => true
  | _ => false

/-- Is this a breaker `record_success()` / `record_failure()` call on
attempt `a`? -/
def isRecordEvt (a : Nat) : REvent → Bool
  | REvent.recSuccess b => a = b
  | REvent.recFailure b => a = b
  | _ => false

/-- Number of breaker record calls attributed to attempt `a` in a trace. -/
def countRec (evts : List REvent) (a : Nat) : Nat :=
  (evts.filter (isRecordEvt a)).length

/-- The events the exception handler emits for attempt `a` (they depend
only on the message's classification, not on the run state). -/
def handlerEvts (jitter : Nat → Rat) (base_delay max_delay : Rat)
    (attempt : Nat) (msg : String) : List REvent :=
  REvent.recFailure attempt ::
    (if classify_error msg = "rate_limit" then
      [REvent.sleptRateLimit attempt
        (min (base_delay * 2 ^ attempt + jitter attempt) max_delay)]
    else if classify_error msg = "transient" then
      [REvent.sleptTransient attempt
        (min (base_delay * (attempt + 1 : Nat)) max_delay)]
    else if classify_error msg = "permanent" then []
    else
      [REvent.sleptDefault attempt
        (min (base_delay * (3 / 2 : Rat) ^ attempt) max_delay)])

/-- Six consecutive `_set_cache` calls into the `agent_config` category
(claimed maximum size 5), starting from the fresh cache. -/
def agentConfigSix : CacheState :=
  set_cache (set_cache (set_cache (set_cache (set_cache (set_cache
    initCacheState 0 "agent_config_1" (Val.int 1))
    1 "agent_config_2" (Val.int 2))
    2 "agent_config_3" (Val.int 3))
    3 "agent_config_4" (Val.int 4))
    4 "agent_config_5" (Val.int 5))
    5 "agent_config_6" (Val.int 6)

/-- A cache holding one `invoice_list` page, then a successful
`update_invoice_status` write. -/
def staleListState : CacheState :=
  (update_invoice_status
    (set_cache initCacheState 0 "invoice_list_50" (Val.list [Val.str "old"]))
    true true "INV-1").2

/-- A default breaker after five consecutive `record_failure` calls at
instant 0. -/
def cbAfterFive : CircuitBreaker :=
  record_failure (record_failure (record_failure (record_failure
    (record_failure CircuitBreaker.init 0) 0) 0) 0) 0

/-- The breaker after the recovery timeout has elapsed and one trial has
been allowed (`can_execute` at instant 61 moved it to `HALF_OPEN`). -/
def cbHalfOpen : CircuitBreaker := (can_execute cbAfterFive 61).2

/-- A fresh `RateLimitHandler`'s run state at instant `t0`: breaker and
limiter as constructed by `RateLimitHandler.__init__`, no invocations
yet. -/
def initRunState (t0 : Int) : RunState :=
  { breaker := CircuitBreaker.init
    limiter := AdaptiveRateLimiter.init t0
    invocations := 0 }

/-- A `with_retry` run (one attempt, base delay 1, max delay 60) entered
with the breaker already open from `cbAfterFive`, at instant 10 (inside
the recovery timeout): the attempt is denied. -/
def deniedRun : Except (Option String) Val × RunState × List REvent :=
  with_retry (fun _ => Except.ok Val.none) (fun _ => 0) (fun _ => 10) 1 1 60
    { breaker := cbAfterFive, limiter := AdaptiveRateLimiter.init 10,
      invocations := 0 }

/-- One iteration of the worker loop (`_worker_loop` lines 250-268): pop
the next job and process it with the given generation outcome. -/
def workerStep (st : InvoiceQueueState) (outcome : Except String (Val × Val))
    (now : Int) : InvoiceQueueState :=
  let (j, st) := get_next_job st
  match j with
  | Option.some job_id => process_job st job_id outcome now
  | Option.none => st

/-- A Redis-backed queue with one freshly enqueued job `j1` (priority 0,
instant 0). -/
def redisQueueOneJob : InvoiceQueueState :=
  (enqueue_invoice { redis_mode := true, jobs := [], queue := [] }
    "j1" Val.none 0 0).2

/-- The same queue after the job's generation failed four times
(`max_retries` is 3, so the claim says the fourth failure must land it in
`failed`). -/
def redisQueueAfterFourFailures : InvoiceQueueState :=
  workerStep (workerStep (workerStep (workerStep redisQueueOneJob
    (Except.error "AI generation failed: boom") 1)
    (Except.error "AI generation failed: boom") 2)
    (Except.error "AI generation failed: boom") 3)
    (Except.error "AI generation failed: boom") 4

/-- The in-memory variant of the same experiment. -/
def memQueueOneJob : InvoiceQueueState :=
  (enqueue_invoice { redis_mode := false, jobs := [], queue := [] }
    "j1" Val.none 0 0).2

def memQueueAfterFourFailures : InvoiceQueueState :=
  workerStep (workerStep (workerStep (workerStep memQueueOneJob
    (Except.error "AI generation failed: boom") 1)
    (Except.error "AI generation failed: boom") 2)
    (Except.error "AI generation failed: boom") 3)
    (Except.error "AI generation failed: boom") 4

/-! ## Supporting lemmas -/

theorem pydict_get_set_self {α : Type} (d : PyDict α) (k : String) (v : α) :
    (d.set k v).get k = Option.some v := by
  induction d with
  | nil => simp [PyDict.set, PyDict.get]
  | cons kv rest ih =>
    by_cases h : kv.1 = k <;> simp [PyDict.set, PyDict.get, h, ih]

theorem set_cache_cache_get (st : CacheState) (now : Int) (key : String)
    (v : Val) : (set_cache st now key v).cache.get key = Option.some v := by
  simp only [set_cache]
  exact pydict_get_set_self _ _ _

theorem set_cache_ts_get (st : CacheState) (now : Int) (key : String)
    (v : Val) :
    (set_cache st now key v).cache_timestamps.get key = Option.some now := by
  simp only [set_cache]
  exact pydict_get_set_self _ _ _

/-- A valid cache read: the exact return value and state of
`_get_from_cache` on a hit. -/
theorem get_from_cache_hit (st : CacheState) (now : Int) (key : String)
    (ts : Int) (v : Val) (h1 : st.cache_timestamps.get key = Option.some ts)
    (h2 : now - ts < ttlFor key) (h3 : st.cache.get key = Option.some v) :
    get_from_cache st now key =
      (v,
       { st with
         stats_total_requests := st.stats_total_requests + 1
         cache_access_count :=
           st.cache_access_count.set key
             (st.cache_access_count.getD key 0 + 1)
         cache_hit_count :=
           st.cache_hit_count.set key (st.cache_hit_count.getD key 0 + 1)
         stats_cache_hits := st.stats_cache_hits + 1
         cache_timestamps := st.cache_timestamps.set key now }) := by
  simp [get_from_cache, is_cache_valid, h1, h2, PyDict.getD, h3]

/-- An expired cache read: `_get_from_cache` reports `None`. -/
theorem get_from_cache_expired (st : CacheState) (now : Int) (key : String)
    (ts : Int) (h1 : st.cache_timestamps.get key = Option.some ts)
    (h2 : ttlFor key ≤ now - ts) :
    (get_from_cache st now key).1 = Val.none := by
  simp [get_from_cache, is_cache_valid, h1, not_lt.mpr h2]

/-! ## Claim C1 — cache TTL per category -/

/-- Claim C1 is false as stated. Three concrete refutations:
(i) a `client_data` entry (claimed TTL 900 s) set at instant 0 and read at
instant 400 (so ε = 400 < 900) is reported absent, because
`_is_cache_valid` looks the TTL up under `key.split("_")[0] = "client"`
and falls back to the 300 s default;
(ii) an `invoice_list` entry (claimed TTL 180 s) read at instant 250
(ε = 70 > 0 past the claimed expiry) is still returned, for the same
reason;
(iii) a `statistics` entry (TTL 300 s) set at 0, read (hit) at 200 — an
intervening read, which the claim permits — and read again at 310
(ε = 10 > 0 past T + t) is still returned, because a hit refreshes the
entry's timestamp. -/
theorem claim1_counterexample :
    (get_from_cache
        (set_cache initCacheState 0 "client_data_acme"
          (Val.list [Val.str "INV-1"])) 400 "client_data_acme").1
      = Val.none
    ∧ (get_from_cache
        (set_cache initCacheState 0 "invoice_list_50" (Val.str "L"))
        250 "invoice_list_50").1 = Val.str "L"
    ∧ (get_from_cache
        ((get_from_cache
            (set_cache initCacheState 0 "statistics_main" (Val.str "S"))
            200 "statistics_main").2) 310 "statistics_main").1
      = Val.str "S" :=
  ⟨rfl, rfl, rfl⟩

/-- Claim C1 (amended): the TTL actually applied to a key is
`cache_ttl.get(key.split("_")[0], 300)`, which is 300 s for every key of
every category the service layer uses (the configured per-category TTLs of
the two-word categories are never looked up, and `statistics` is
configured at 300 anyway). With that effective TTL, and with no
intervening operation on the key after `_set_cache` at instant `T`: a read
at `T + ε` with `ε < 300` returns the stored value, a read at `T + ε` with
`ε ≥ 300` reports the value absent; moreover a hit refreshes the entry's
timestamp to the read instant, so expiry slides under intervening reads
(which is why the original "intervening reads permitted" clause fails). -/
theorem claim1_amended :
    (∀ s : String,
      ttlFor ("statistics_" ++ s) = 300 ∧ ttlFor ("invoice_list_" ++ s) = 300
      ∧ ttlFor ("search_results_" ++ s) = 300
      ∧ ttlFor ("invoice_detail_" ++ s) = 300
      ∧ ttlFor ("client_data_" ++ s) = 300
      ∧ ttlFor ("agent_config_" ++ s) = 300
      ∧ ttlFor ("service_status_" ++ s) = 300)
    ∧ (∀ (st0 : CacheState) (T ε : Int) (key : String) (v : Val),
        (ε < ttlFor key →
          (get_from_cache (set_cache st0 T key v) (T + ε) key).1 = v)
        ∧ (ttlFor key ≤ ε →
          (get_from_cache (set_cache st0 T key v) (T + ε) key).1 = Val.none)
        ∧ (ε < ttlFor key →
          ((get_from_cache (set_cache st0 T key v) (T + ε) key).2
            ).cache_timestamps.get key = Option.some (T + ε))) := by
  constructor
  · intro s
    exact ⟨rfl, rfl, rfl, rfl, rfl, rfl, rfl⟩
  · intro st0 T ε key v
    have hts := set_cache_ts_get st0 T key v
    have hv := set_cache_cache_get st0 T key v
    have hage : T + ε - T = ε := by ring
    refine ⟨fun h => ?_, fun h => ?_, fun h => ?_⟩
    · rw [get_from_cache_hit _ _ _ T v hts (by rw [hage]; exact h) hv]
    · exact get_from_cache_expired _ _ _ T hts (by rw [hage]; exact h)
    · rw [get_from_cache_hit _ _ _ T v hts (by rw [hage]; exact h) hv]
      exact pydict_get_set_self _ _ _

/-- Witness for `claim1_amended`: an `invoice_list` entry set at 0 is
returned at 250 and absent at 301 (effective TTL 300). -/
theorem claim1_amended_witness :
    (get_from_cache
        (set_cache initCacheState 0 "invoice_list_50" (Val.str "L"))
        (0 + 250) "invoice_list_50").1 = Val.str "L"
    ∧ (get_from_cache
        (set_cache initCacheState 0 "invoice_list_50" (Val.str "L"))
        (0 + 301) "invoice_list_50").1 = Val.none :=
  ⟨(claim1_amended.2 initCacheState 0 250 "invoice_list_50"
      (Val.str "L")).1 (by decide),
   ((claim1_amended.2 initCacheState 0 301 "invoice_list_50"
      (Val.str "L")).2.1 (by decide))⟩

/-! ## Claim C4 — cache size bound per category -/

/-- Claim C4 is false on the code: the configured `agent_config` maximum
is 5, yet after six `_set_cache` calls into `agent_config` all six entries
are live, because `_set_cache` looks the bound up under
`key.split("_")[0] = "agent"` and falls back to the default of 50 (the
same slip kills every two-word category bound, and the `startswith`-based
counting pools `invoice_list` with `invoice_detail` under `"invoice"`).
The configured dict entry is dead code, contradicting the stated
configuration — a code bug. -/
theorem claim4_failing_input :
    cache_max_size.get "agent_config" = Option.some 5
    ∧ (agentConfigSix.cache.keys.filter
        (fun k => pyStartsWith k "agent_config")).length = 6
    ∧ agentConfigSix.stats_evictions = 0 := by
  refine ⟨rfl, by decide, by decide⟩

theorem read_none_of_cache_none (st : CacheState) (now : Int) (key : String)
    (h : st.cache.get key = Option.none) :
    (get_from_cache st now key).1 = Val.none := by
  simp only [get_from_cache, PyDict.getD, h]
  split <;> simp

theorem get_statistics_fresh (st : CacheState) (now : Int) (stats : Val)
    (h : st.cache.get "statistics_main" = Option.none) :
    (get_statistics st now false true stats).1 = stats := by
  have h1 := read_none_of_cache_none st now "statistics_main" h
  simp only [get_statistics]
  simp [h1, truthy]

theorem list_invoices_fresh (st : CacheState) (now : Int) (limit : Nat)
    (bl : List Val)
    (h : st.cache.get ("invoice_list_" ++ toString limit) = Option.none) :
    (list_invoices st now limit false true bl).1 = Val.list bl := by
  have h1 := read_none_of_cache_none st now _ h
  simp only [list_invoices]
  simp [h1, truthy]

theorem pydict_get_none_of_not_mem {α : Type} (d : PyDict α) (key : String)
    (h : key ∉ d.keys) : d.get key = Option.none := by
  induction d with
  | nil => rfl
  | cons kv rest ih =>
    simp [PyDict.keys] at h
    simp [PyDict.get, h.1, ih (by simp [PyDict.keys, h.2])]
    intro hk
    exact absurd hk.symm h.1

theorem pydict_mem_keys_of_get_some {α : Type} (d : PyDict α) (key : String)
    (h : (d.get key).isSome) : key ∈ d.keys := by
  by_contra hn
  rw [pydict_get_none_of_not_mem d key hn] at h
  simp at h

theorem pydict_get_pop_of_none {α : Type} (d : PyDict α) (a key : String)
    (h : d.get key = Option.none) : (d.pop a).get key = Option.none := by
  induction d with
  | nil => rfl
  | cons kv rest ih =>
    simp only [PyDict.get] at h
    by_cases hk : kv.1 = key
    · simp [hk] at h
    · simp only [PyDict.pop]
      by_cases ha : kv.1 = a
      · simp only [ha, if_pos rfl]
        simpa [hk] using h
      · simp only [if_neg ha, PyDict.get, if_neg hk]
        exact ih (by simpa [hk] using h)

theorem pydict_pop_keys_sublist {α : Type} (d : PyDict α) (a : String) :
    (d.pop a).keys.Sublist d.keys := by
  induction d with
  | nil => simp [PyDict.pop]
  | cons kv rest ih =>
    simp only [PyDict.pop]
    by_cases ha : kv.1 = a
    · simp only [ha, if_pos rfl, PyDict.keys, List.map]
      exact (List.sublist_cons_self _ _)
    · simp only [if_neg ha, PyDict.keys, List.map]
      exact List.Sublist.cons₂ _ ih

theorem pydict_get_pop_self {α : Type} (d : PyDict α) (a : String)
    (h : d.keys.Nodup) : (d.pop a).get a = Option.none := by
  induction d with
  | nil => rfl
  | cons kv rest ih =>
    simp only [PyDict.keys, List.map, List.nodup_cons] at h
    by_cases ha : kv.1 = a
    · simp only [PyDict.pop, if_pos ha]
      apply pydict_get_none_of_not_mem
      rw [← ha]
      exact h.1
    · simp only [PyDict.pop, if_neg ha, PyDict.get, if_neg ha]
      exact ih h.2

theorem remove_entry_cache_pres_none (st : CacheState) (a key : String)
    (h : st.cache.get key = Option.none) :
    (remove_cache_entry st a).cache.get key = Option.none :=
  pydict_get_pop_of_none _ _ _ h

theorem remove_entry_cache_self (st : CacheState) (a : String)
    (h : st.cache.keys.Nodup) :
    (remove_cache_entry st a).cache.get a = Option.none :=
  pydict_get_pop_self _ _ h

theorem remove_entry_nodup (st : CacheState) (a : String)
    (h : st.cache.keys.Nodup) : (remove_cache_entry st a).cache.keys.Nodup :=
  (pydict_pop_keys_sublist _ _).nodup h

theorem foldl_remove_nodup (L : List String) (st : CacheState)
    (h : st.cache.keys.Nodup) :
    (L.foldl remove_cache_entry st).cache.keys.Nodup := by
  induction L generalizing st with
  | nil => exact h
  | cons a L ih => exact ih _ (remove_entry_nodup _ _ h)

theorem foldl_remove_get_none (L : List String) (st : CacheState)
    (key : String) (h : st.cache.keys.Nodup)
    (hk : st.cache.get key = Option.none ∨ key ∈ L) :
    (L.foldl remove_cache_entry st).cache.get key = Option.none := by
  induction L generalizing st with
  | nil =>
    rcases hk with hk | hk
    · exact hk
    · simp at hk
  | cons a L ih =>
    simp only [List.foldl_cons]
    rcases hk with hk | hk
    · exact ih _ (remove_entry_nodup _ _ h)
        (Or.inl (remove_entry_cache_pres_none _ _ _ hk))
    · rcases List.mem_cons.mp hk with rfl | hmem
      · exact ih _ (remove_entry_nodup _ _ h)
          (Or.inl (remove_entry_cache_self _ _ h))
      · exact ih _ (remove_entry_nodup _ _ h) (Or.inr hmem)

theorem foldl_remove_filter_get_none (st : CacheState) (P : String → Bool)
    (key : String) (hnd : st.cache.keys.Nodup) (hk : P key = true) :
    ((st.cache.keys.filter P).foldl remove_cache_entry st).cache.get key
      = Option.none := by
  apply foldl_remove_get_none _ _ _ hnd
  by_cases hsome : (st.cache.get key).isSome
  · exact Or.inr (List.mem_filter.mpr
      ⟨pydict_mem_keys_of_get_some _ _ hsome, hk⟩)
  · left
    cases hg : st.cache.get key with
    | none => rfl
    | some v => rw [hg] at hsome; simp at hsome

theorem clear_pattern_get_none (st : CacheState) (pat key : String)
    (hnd : st.cache.keys.Nodup) (hk : pyContains key pat = true) :
    (clear_cache_pattern st pat).cache.get key = Option.none :=
  foldl_remove_filter_get_none st _ key hnd hk

theorem clear_pattern_nodup (st : CacheState) (pat : String)
    (hnd : st.cache.keys.Nodup) :
    (clear_cache_pattern st pat).cache.keys.Nodup :=
  foldl_remove_nodup _ _ hnd

theorem clear_pattern_pres_none (st : CacheState) (pat key : String)
    (h : st.cache.get key = Option.none) :
    (clear_cache_pattern st pat).cache.get key = Option.none := by
  simp only [clear_cache_pattern]
  generalize (st.cache.keys.filter fun k => pyContains k pat) = L
  induction L generalizing st with
  | nil => exact h
  | cons a L ih =>
    exact ih _ (remove_entry_cache_pres_none _ _ _ h)

theorem ite_remove_pres_none (c : Prop) [Decidable c] (st : CacheState)
    (a key : String) (h : st.cache.get key = Option.none) :
    (if c then remove_cache_entry st a else st).cache.get key
      = Option.none := by
  split
  · exact remove_entry_cache_pres_none _ _ _ h
  · exact h

theorem ite_remove_nodup (c : Prop) [Decidable c] (st : CacheState)
    (a : String) (h : st.cache.keys.Nodup) :
    (if c then remove_cache_entry st a else st).cache.keys.Nodup := by
  split
  · exact remove_entry_nodup _ _ h
  · exact h

theorem isPrefixL_append_self (p r : List Char) :
    isPrefixL p (p ++ r) = true := by
  induction p with
  | nil => rfl
  | cons c cs ih => simp [isPrefixL, ih]

theorem isSubstrL_of_prefix (p l : List Char) (h : isPrefixL p l = true) :
    isSubstrL p l = true := by
  cases l with
  | nil =>
    cases p with
    | nil => rfl
    | cons c cs => simp [isPrefixL] at h
  | cons c cs => simp [isSubstrL, h]

theorem isPrefixL_append_of_prefix (p q r : List Char)
    (h : isPrefixL p q = true) : isPrefixL p (q ++ r) = true := by
  induction p generalizing q with
  | nil => rfl
  | cons a as ih =>
    cases q with
    | nil => simp [isPrefixL] at h
    | cons b bs =>
      simp only [isPrefixL, Bool.and_eq_true] at h ⊢
      exact ⟨h.1, ih bs (by simpa using h.2)⟩

theorem save_invoice_saved_state (st : CacheState) (ca : Bool)
    (cOut sOut : Except String Bool) (sa : Bool) (invNum : Option String)
    (client : String)
    (h : (save_invoice st ca cOut sa sOut invNum client).1.cosmos_saved
      = true) :
    (save_invoice st ca cOut sa sOut invNum client).2
      = save_invalidate st invNum client := by
  match ca, cOut with
  | false, _ => simp [save_invoice] at h
  | true, Except.error m => simp [save_invoice] at h
  | true, Except.ok false => simp [save_invoice] at h
  | true, Except.ok true => rfl

theorem update_status_success_state (st : CacheState) (ca upOk : Bool)
    (n : String)
    (h : (update_invoice_status st ca upOk n).1 = true) :
    (update_invoice_status st ca upOk n).2 = update_invalidate st n := by
  match ca, upOk with
  | false, _ => simp [update_invoice_status] at h
  | true, false => simp [update_invoice_status] at h
  | true, true => rfl

theorem save_invalidate_props (st : CacheState) (invNum : Option String)
    (client : String) (hnd : st.cache.keys.Nodup) :
    (∀ k, pyContains k "statistics" = true →
      (save_invalidate st invNum client).cache.get k = Option.none)
    ∧ (∀ k, pyContains k "invoice_list" = true →
      (save_invalidate st invNum client).cache.get k = Option.none)
    ∧ (truthyOptStr invNum = true →
      (save_invalidate st invNum client).cache.get
        ("invoice_detail_" ++ invNum.getD "") = Option.none)
    ∧ (client.data.isEmpty = false →
      (save_invalidate st invNum client).cache.get
        ("client_data_" ++ normalizeClientKey client) = Option.none) := by
  have hnd1 := clear_pattern_nodup st "statistics" hnd
  have hnd2 := clear_pattern_nodup _ "invoice_list" hnd1
  simp only [save_invalidate]
  refine ⟨?_, ?_, ?_, ?_⟩
  · intro k hk
    apply ite_remove_pres_none
    apply ite_remove_pres_none
    exact clear_pattern_pres_none _ _ _ (clear_pattern_get_none _ _ _ hnd hk)
  · intro k hk
    apply ite_remove_pres_none
    apply ite_remove_pres_none
    exact clear_pattern_get_none _ _ _ hnd1 hk
  · intro h3
    apply ite_remove_pres_none
    rw [if_pos h3]
    exact remove_entry_cache_self _ _ hnd2
  · intro h4
    have h4' : (!client.data.isEmpty) = true := by simp [h4]
    rw [if_pos h4']
    apply remove_entry_cache_self
    exact ite_remove_nodup _ _ _ hnd2

theorem update_invalidate_props (st : CacheState) (n : String)
    (hnd : st.cache.keys.Nodup) :
    (∀ k, pyContains k "statistics" = true →
      (update_invalidate st n).cache.get k = Option.none)
    ∧ (update_invalidate st n).cache.get ("invoice_detail_" ++ n)
        = Option.none
    ∧ (∀ k, pyStartsWith k "search_results" = true →
      (update_invalidate st n).cache.get k = Option.none) := by
  have hnd1 := clear_pattern_nodup st "statistics" hnd
  have hnd2 := remove_entry_nodup _ ("invoice_detail_" ++ n) hnd1
  simp only [update_invalidate]
  refine ⟨?_, ?_, ?_⟩
  · intro k hk
    exact foldl_remove_get_none _ _ _ hnd2
      (Or.inl (remove_entry_cache_pres_none _ _ _
        (clear_pattern_get_none _ _ _ hnd hk)))
  · exact foldl_remove_get_none _ _ _ hnd2
      (Or.inl (remove_entry_cache_self _ _ hnd1))
  · intro k hk
    exact foldl_remove_filter_get_none _ _ _ hnd2 hk

/-- Claim C2 (amended): after `save_invoice` succeeds (document-store save
reported true), every `statistics` and `invoice_list` entry is removed,
the `invoice_detail` entry for the affected invoice and the `client_data`
entry for the affected client are removed, and subsequent
`get_statistics()` / `list_invoices()` calls re-fetch. After
`update_invoice_status` succeeds, only the `statistics` category is
cleared in full, the `invoice_detail` entry for the affected invoice is
removed, and every `search_results` entry is removed — `invoice_list`
pages and `client_data` entries are left untouched — so the no-stale
guarantee after a status update holds for `get_statistics()` but not for
`list_invoices()`. -/
theorem claim2_amended :
    (∀ (st : CacheState) (cosmos_avail search_avail : Bool)
      (cosmosOutcome searchOutcome : Except String Bool)
      (invNum : Option String) (client : String),
      st.cache.keys.Nodup →
      (save_invoice st cosmos_avail cosmosOutcome search_avail searchOutcome
          invNum client).1.cosmos_saved = true →
      (∀ k, pyContains k "statistics" = true →
        (save_invoice st cosmos_avail cosmosOutcome search_avail
            searchOutcome invNum client).2.cache.get k = Option.none)
      ∧ (∀ k, pyContains k "invoice_list" = true →
        (save_invoice st cosmos_avail cosmosOutcome search_avail
            searchOutcome invNum client).2.cache.get k = Option.none)
      ∧ (truthyOptStr invNum = true →
        (save_invoice st cosmos_avail cosmosOutcome search_avail
            searchOutcome invNum client).2.cache.get
          ("invoice_detail_" ++ invNum.getD "") = Option.none)
      ∧ (client.data.isEmpty = false →
        (save_invoice st cosmos_avail cosmosOutcome search_avail
            searchOutcome invNum client).2.cache.get
          ("client_data_" ++ normalizeClientKey client) = Option.none)
      ∧ (∀ (now : Int) (stats : Val),
        (get_statistics
          (save_invoice st cosmos_avail cosmosOutcome search_avail
            searchOutcome invNum client).2 now false true stats).1 = stats)
      ∧ (∀ (now : Int) (limit : Nat) (bl : List Val),
        (list_invoices
          (save_invoice st cosmos_avail cosmosOutcome search_avail
            searchOutcome invNum client).2 now limit false true bl).1
          = Val.list bl))
    ∧ (∀ (st : CacheState) (cosmos_avail updateOk : Bool) (n : String),
      st.cache.keys.Nodup →
      (update_invoice_status st cosmos_avail updateOk n).1 = true →
      (∀ k, pyContains k "statistics" = true →
        (update_invoice_status st cosmos_avail updateOk n).2.cache.get k
          = Option.none)
      ∧ (update_invoice_status st cosmos_avail updateOk n).2.cache.get
          ("invoice_detail_" ++ n) = Option.none
      ∧ (∀ k, pyStartsWith k "search_results" = true →
        (update_invoice_status st cosmos_avail updateOk n).2.cache.get k
          = Option.none)
      ∧ (∀ (now : Int) (stats : Val),
        (get_statistics (update_invoice_status st cosmos_avail updateOk n).2
          now false true stats).1 = stats)) := by
  constructor
  · intro st ca sa cOut sOut invNum client hnd hres
    rw [save_invoice_saved_state st ca cOut sOut sa invNum client hres]
    obtain ⟨p1, p2, p3, p4⟩ := save_invalidate_props st invNum client hnd
    refine ⟨p1, p2, p3, p4, ?_, ?_⟩
    · intro now stats
      exact get_statistics_fresh _ _ _ (p1 _ (by decide))
    · intro now limit bl
      apply list_invoices_fresh
      apply p2
      apply isSubstrL_of_prefix
      rw [String.data_append]
      exact isPrefixL_append_of_prefix _ _ _ (by decide)
  · intro st ca upOk n hnd hok
    rw [update_status_success_state st ca upOk n hok]
    obtain ⟨p1, p2, p3⟩ := update_invalidate_props st n hnd
    refine ⟨p1, p2, p3, ?_⟩
    intro now stats
    exact get_statistics_fresh _ _ _ (p1 _ (by decide))

/-- Claim C2 is false as stated for `update_invoice_status`: with an
`invoice_list` page cached at instant 0, a successful status update
removes neither it (it is still cached afterwards) nor the `client_data`
category, and a subsequent `list_invoices` call returns the value cached
strictly before the write. -/
theorem claim2_counterexample :
    (update_invoice_status
      (set_cache initCacheState 0 "invoice_list_50" (Val.list [Val.str "old"]))
      true true "INV-1").1 = true
    ∧ staleListState.cache.get "invoice_list_50"
        = Option.some (Val.list [Val.str "old"])
    ∧ (list_invoices staleListState 2 50 false true [Val.str "new"]).1
        = Val.list [Val.str "old"] :=
  ⟨rfl, rfl, rfl⟩

/-- Witness for `claim2_amended`: concrete save and update runs. -/
theorem claim2_amended_witness :
    (list_invoices
      (save_invoice (set_cache initCacheState 0 "invoice_list_10"
          (Val.str "stale"))
        true (Except.ok true) false (Except.ok false)
        (Option.some "INV-9") "Acme Corp").2
      5 10 false true [Val.str "fresh"]).1 = Val.list [Val.str "fresh"]
    ∧ (get_statistics
      (update_invoice_status (set_cache initCacheState 0 "statistics_main"
          (Val.str "stale"))
        true true "INV-9").2
      5 false true (Val.str "freshStats")).1 = Val.str "freshStats" :=
  ⟨(claim2_amended.1 (set_cache initCacheState 0 "invoice_list_10"
        (Val.str "stale"))
      true false (Except.ok true) (Except.ok false)
      (Option.some "INV-9") "Acme Corp" (by decide)
      (by decide)).2.2.2.2.2 5 10 [Val.str "fresh"],
   (claim2_amended.2 (set_cache initCacheState 0 "statistics_main"
        (Val.str "stale"))
      true true "INV-9" (by decide) (by decide)).2.2.2 5 (Val.str "freshStats")⟩

theorem pydict_getD_set_self {α : Type} (d : PyDict α) (k : String) (v w : α) :
    (d.set k v).getD k w = v := by
  simp [PyDict.getD, pydict_get_set_self]

/-- Claim C10: a falsy cached value (Python `None`, an empty list, …)
is never served from the cache by the public read operations: their
`if cached:` guard treats it as absent, so a fresh backend fetch is
performed and re-cached — the call behaves exactly like a forced
refresh on the post-read state — even though `_get_from_cache` counts
the access as a hit, increments the hit counters and refreshes the
entry's timestamp. -/
theorem claim10_falsy_never_served :
    (∀ (st : CacheState) (now ts : Int) (key : String) (v : Val),
      st.cache_timestamps.get key = Option.some ts → now - ts < ttlFor key →
      st.cache.get key = Option.some v → truthy v = false →
      (get_from_cache st now key).1 = v
      ∧ (get_from_cache st now key).2.stats_cache_hits
          = st.stats_cache_hits + 1
      ∧ (get_from_cache st now key).2.cache_hit_count.getD key 0
          = st.cache_hit_count.getD key 0 + 1
      ∧ (get_from_cache st now key).2.cache_timestamps.get key
          = Option.some now)
    ∧ (∀ (st : CacheState) (now ts : Int) (n : String) (v bi : Val)
        (ca : Bool),
      st.cache_timestamps.get ("invoice_detail_" ++ n) = Option.some ts →
      now - ts < ttlFor ("invoice_detail_" ++ n) →
      st.cache.get ("invoice_detail_" ++ n) = Option.some v →
      truthy v = false →
      get_invoice st now n false ca bi
        = get_invoice (get_from_cache st now ("invoice_detail_" ++ n)).2
            now n true ca bi
      ∧ (ca = true → (get_invoice st now n false ca bi).1 = bi
        ∧ (get_invoice st now n false ca bi).2.cache.get
            ("invoice_detail_" ++ n) = Option.some bi))
    ∧ (∀ (st : CacheState) (now ts : Int) (v stats : Val) (ca : Bool),
      st.cache_timestamps.get "statistics_main" = Option.some ts →
      now - ts < ttlFor "statistics_main" →
      st.cache.get "statistics_main" = Option.some v → truthy v = false →
      get_statistics st now false ca stats
        = get_statistics (get_from_cache st now "statistics_main").2
            now true ca stats
      ∧ (ca = true → (get_statistics st now false ca stats).1 = stats
        ∧ (get_statistics st now false ca stats).2.cache.get
            "statistics_main" = Option.some stats))
    ∧ (∀ (st : CacheState) (now ts : Int) (limit : Nat) (v : Val)
        (bl : List Val) (ca : Bool),
      st.cache_timestamps.get ("invoice_list_" ++ toString limit)
        = Option.some ts →
      now - ts < ttlFor ("invoice_list_" ++ toString limit) →
      st.cache.get ("invoice_list_" ++ toString limit) = Option.some v →
      truthy v = false →
      list_invoices st now limit false ca bl
        = list_invoices
            (get_from_cache st now ("invoice_list_" ++ toString limit)).2
            now limit true ca bl
      ∧ (ca = true → (list_invoices st now limit false ca bl).1
          = Val.list bl
        ∧ (list_invoices st now limit false ca bl).2.cache.get
            ("invoice_list_" ++ toString limit)
            = Option.some (Val.list bl)))
    ∧ (∀ (md5hex : String → String) (st : CacheState) (now ts : Int)
        (q : String) (v : Val) (sa ca : Bool)
        (sOut cOut : Except String (List Val)),
      st.cache_timestamps.get
          ("search_results_" ++ (⟨((md5hex (pyLower q)).data.take 8)⟩ : String))
        = Option.some ts →
      now - ts
        < ttlFor ("search_results_"
            ++ (⟨((md5hex (pyLower q)).data.take 8)⟩ : String)) →
      st.cache.get ("search_results_"
          ++ (⟨((md5hex (pyLower q)).data.take 8)⟩ : String))
        = Option.some v →
      truthy v = false →
      search_invoices md5hex st now q false sa ca sOut cOut
        = search_invoices md5hex
            (get_from_cache st now
              ("search_results_"
                ++ (⟨((md5hex (pyLower q)).data.take 8)⟩ : String))).2
            now q true sa ca sOut cOut
      ∧ (search_invoices md5hex st now q false sa ca sOut cOut).2.cache.get
          ("search_results_" ++ (⟨((md5hex (pyLower q)).data.take 8)⟩ : String))
          = Option.some
              (search_invoices md5hex st now q false sa ca sOut cOut).1)
    ∧ (∀ (md5hex : String → String) (st : CacheState) (now ts : Int)
        (c : String) (v : Val) (sa ca : Bool)
        (sOut cOut : Except String (List Val)),
      st.cache_timestamps.get ("client_data_" ++ normalizeClientKey c)
        = Option.some ts →
      now - ts < ttlFor ("client_data_" ++ normalizeClientKey c) →
      st.cache.get ("client_data_" ++ normalizeClientKey c)
        = Option.some v →
      truthy v = false →
      get_client_invoices md5hex st now c false sa ca sOut cOut
        = get_client_invoices md5hex
            (get_from_cache st now
              ("client_data_" ++ normalizeClientKey c)).2
            now c true sa ca sOut cOut
      ∧ (get_client_invoices md5hex st now c false sa ca sOut cOut
          ).2.cache.get ("client_data_" ++ normalizeClientKey c)
          = Option.some
              (get_client_invoices md5hex st now c false sa ca sOut cOut).1)
    ∧ (∀ (st : CacheState) (now ts : Int) (v : Val)
        (statusVal : PyDict Val),
      st.cache_timestamps.get "service_status_main" = Option.some ts →
      now - ts < ttlFor "service_status_main" →
      st.cache.get "service_status_main" = Option.some v →
      truthy v = false →
      get_service_status_cached st now false statusVal
        = get_service_status_cached
            (get_from_cache st now "service_status_main").2 now true statusVal
      ∧ (get_service_status_cached st now false statusVal).2.cache.get
          "service_status_main"
          = Option.some (get_service_status_cached st now false statusVal).1)
    := by
  refine ⟨?_, ?_, ?_, ?_, ?_, ?_, ?_⟩
  · intro st now ts key v hts hage hv hfalsy
    rw [get_from_cache_hit st now key ts v hts hage hv]
    exact ⟨rfl, rfl, pydict_getD_set_self _ _ _ _, pydict_get_set_self _ _ _⟩
  · intro st now ts n v bi ca hts hage hv hfalsy
    have hfst : (get_from_cache st now ("invoice_detail_" ++ n)).1 = v := by
      rw [get_from_cache_hit st now _ ts v hts hage hv]
    refine ⟨?_, ?_⟩
    · simp only [get_invoice]
      simp [hfst, hfalsy]
    · intro hca
      subst hca
      constructor
      · simp only [get_invoice]
        simp [hfst, hfalsy]
      · simp only [get_invoice]
        simp [hfst, hfalsy, set_cache_cache_get]
  · intro st now ts v stats ca hts hage hv hfalsy
    have hfst : (get_from_cache st now "statistics_main").1 = v := by
      rw [get_from_cache_hit st now _ ts v hts hage hv]
    refine ⟨?_, ?_⟩
    · simp only [get_statistics]
      simp [hfst, hfalsy]
    · intro hca
      subst hca
      constructor
      · simp only [get_statistics]
        simp [hfst, hfalsy]
      · simp only [get_statistics]
        simp [hfst, hfalsy, set_cache_cache_get]
  · intro st now ts limit v bl ca hts hage hv hfalsy
    have hfst :
        (get_from_cache st now ("invoice_list_" ++ toString limit)).1 = v := by
      rw [get_from_cache_hit st now _ ts v hts hage hv]
    refine ⟨?_, ?_⟩
    · simp only [list_invoices]
      simp [hfst, hfalsy]
    · intro hca
      subst hca
      constructor
      · simp only [list_invoices]
        simp [hfst, hfalsy]
      · simp only [list_invoices]
        simp [hfst, hfalsy, set_cache_cache_get]
  · intro md5hex st now ts q v sa ca sOut cOut hts hage hv hfalsy
    have hfst : (get_from_cache st now
        ("search_results_"
          ++ (⟨((md5hex (pyLower q)).data.take 8)⟩ : String))).1 = v := by
      rw [get_from_cache_hit st now _ ts v hts hage hv]
    refine ⟨?_, ?_⟩
    · simp only [search_invoices]
      simp [hfst, hfalsy]
    · simp only [search_invoices]
      simp [hfst, hfalsy, set_cache_cache_get]
  · intro md5hex st now ts c v sa ca sOut cOut hts hage hv hfalsy
    have hfst : (get_from_cache st now
        ("client_data_" ++ normalizeClientKey c)).1 = v := by
      rw [get_from_cache_hit st now _ ts v hts hage hv]
    refine ⟨?_, ?_⟩
    · simp only [get_client_invoices]
      simp [hfst, hfalsy]
    · simp only [get_client_invoices]
      simp [hfst, hfalsy, set_cache_cache_get]
  · intro st now ts v statusVal hts hage hv hfalsy
    have hfst : (get_from_cache st now "service_status_main").1 = v := by
      rw [get_from_cache_hit st now _ ts v hts hage hv]
    refine ⟨?_, ?_⟩
    · simp only [get_service_status_cached]
      simp [hfst, hfalsy]
    · simp only [get_service_status_cached]
      simp [hfst, hfalsy, set_cache_cache_get]

/-- Witness for `claim10_falsy_never_served`: a cached `None` invoice is
re-fetched from the backend within its TTL. -/
theorem claim10_witness :
    (get_invoice
      (set_cache initCacheState 0 ("invoice_detail_" ++ "INV1") Val.none)
      10 "INV1" false true (Val.str "fresh")).1 = Val.str "fresh" :=
  ((claim10_falsy_never_served.2.1
      (set_cache initCacheState 0 ("invoice_detail_" ++ "INV1") Val.none)
      10 0 "INV1" Val.none (Val.str "fresh") true
      rfl (by decide) rfl rfl).2 rfl).1

theorem gfc_cache_eq (st : CacheState) (now : Int) (key : String) :
    (get_from_cache st now key).2.cache = st.cache := by
  simp only [get_from_cache]
  split <;> rfl

theorem truthy_getD_get (d : PyDict Val) (key : String)
    (h : truthy (d.getD key Val.none) = true) :
    d.get key = Option.some (d.getD key Val.none) := by
  cases hg : d.get key with
  | none => rw [PyDict.getD, hg] at h; simp [truthy] at h
  | some v => rw [PyDict.getD, hg]; rfl

theorem get_from_cache_fst (st : CacheState) (now : Int) (key : String) :
    (get_from_cache st now key).1
      = if is_cache_valid st now key then st.cache.getD key Val.none
        else Val.none := by
  simp only [get_from_cache]
  split <;> rfl

/-- Claim C8: search queries the full-text index first, falls back to the
document store when the index errors or returns nothing, and the final
result list (empty included) is stored under the search cache key, an
8-hex-digit prefix of the digest of the lowercased query. -/
theorem claim8_search_fallback :
    (∀ (md5hex : String → String) (st : CacheState) (now : Int)
      (q : String) (force sa ca : Bool)
      (sOut cOut : Except String (List Val)),
      (search_invoices md5hex st now q force sa ca sOut cOut).2.cache.get
          ("search_results_" ++ (⟨((md5hex (pyLower q)).data.take 8)⟩ : String))
        = Option.some (search_invoices md5hex st now q force sa ca sOut cOut).1)
    ∧ (∀ (md5hex : String → String) (st : CacheState) (now : Int)
      (q : String) (ca : Bool) (r : List Val)
      (cOut : Except String (List Val)),
      r ≠ [] →
      (search_invoices md5hex st now q true true ca (Except.ok r) cOut).1
        = Val.list r)
    ∧ (∀ (md5hex : String → String) (st : CacheState) (now : Int)
      (q : String) (sOut : Except String (List Val)) (c : List Val),
      (sOut = Except.ok [] ∨ ∃ e, sOut = Except.error e) →
      (search_invoices md5hex st now q true true true sOut
          (Except.ok c)).1 = Val.list c)
    ∧ (∀ (md5hex : String → String) (q : String),
      (∀ s, ((md5hex s).data.length = 32
        ∧ ∀ ch ∈ (md5hex s).data, ch ∈ "0123456789abcdef".data)) →
      ((md5hex (pyLower q)).data.take 8).length = 8
      ∧ ∀ ch ∈ (md5hex (pyLower q)).data.take 8,
          ch ∈ "0123456789abcdef".data) := by
  refine ⟨?_, ?_, ?_, ?_⟩
  · intro md5hex st now q force sa ca sOut cOut
    cases force with
    | true =>
      simp only [search_invoices]
      simp [set_cache_cache_get]
    | false =>
      have hfst := get_from_cache_fst st now
        ("search_results_" ++ (⟨((md5hex (pyLower q)).data.take 8)⟩ : String))
      by_cases hvalid : is_cache_valid st now
          ("search_results_"
            ++ (⟨((md5hex (pyLower q)).data.take 8)⟩ : String)) = true
      · rw [if_pos hvalid] at hfst
        by_cases ht : truthy (st.cache.getD
            ("search_results_"
              ++ (⟨((md5hex (pyLower q)).data.take 8)⟩ : String))
            Val.none) = true
        · simp only [search_invoices]
          simp [hfst, ht, gfc_cache_eq, truthy_getD_get _ _ ht]
        · simp only [search_invoices]
          simp [hfst, ht, set_cache_cache_get]
      · rw [if_neg hvalid] at hfst
        simp only [search_invoices]
        simp [hfst, truthy, set_cache_cache_get]
  · intro md5hex st now q ca r cOut hr
    simp only [search_invoices]
    simp [hr]
  · intro md5hex st now q sOut c hcase
    rcases hcase with rfl | ⟨e, rfl⟩ <;>
      · simp only [search_invoices]
        simp
  · intro md5hex q hmd
    refine ⟨?_, ?_⟩
    · rw [List.length_take, (hmd (pyLower q)).1]
      omega
    · intro ch hch
      exact (hmd (pyLower q)).2 ch (List.take_subset _ _ hch)

/-- Witness for `claim8_search_fallback`: with the index returning no
results, the document-store fallback result is returned, and the cache
key hash prefix has 8 hex digits. -/
theorem claim8_witness :
    (search_invoices (fun _ => "0123456789abcdef0123456789abcdef")
      initCacheState 0 "Unknown Query" true true true (Except.ok [])
      (Except.ok [Val.str "inv"])).1 = Val.list [Val.str "inv"]
    ∧ (((fun (_ : String) => "0123456789abcdef0123456789abcdef")
        (pyLower "Unknown Query")).data.take 8).length = 8 :=
  ⟨claim8_search_fallback.2.2.1 (fun _ => "0123456789abcdef0123456789abcdef")
      initCacheState 0 "Unknown Query" (Except.ok []) [Val.str "inv"]
      (Or.inl rfl),
   (claim8_search_fallback.2.2.2 (fun _ => "0123456789abcdef0123456789abcdef")
      "Unknown Query" (fun _ =>
        ⟨(by decide :
            ("0123456789abcdef0123456789abcdef" : String).data.length = 32),
         (by decide : ∀ ch ∈ ("0123456789abcdef0123456789abcdef" :
              String).data, ch ∈ "0123456789abcdef".data)⟩)).1⟩

theorem rf_fields (cb : CircuitBreaker) (t : Int) :
    (record_failure cb t).failure_count = cb.failure_count + 1
    ∧ (record_failure cb t).last_failure_time = Option.some t
    ∧ (record_failure cb t).failure_threshold = cb.failure_threshold
    ∧ (record_failure cb t).recovery_timeout = cb.recovery_timeout
    ∧ (record_failure cb t).half_open_max_calls = cb.half_open_max_calls := by
  simp only [record_failure]
  split <;> simp

theorem rf_state_open (cb : CircuitBreaker) (t : Int)
    (h : cb.failure_threshold ≤ cb.failure_count + 1) :
    (record_failure cb t).state = CBState.open := by
  simp only [record_failure]
  rw [if_pos (by simpa using h)]

/-- Parameter constancy and the failure-count invariant of reachable
breaker states: away from `CLOSED` the failure count is at least the
threshold. -/
theorem cb_reachable_invariant (cb : CircuitBreaker) (h : CBReachable cb) :
    cb.failure_threshold = 5 ∧ cb.recovery_timeout = 60
    ∧ cb.half_open_max_calls = 3
    ∧ (cb.state ≠ CBState.closed → 5 ≤ cb.failure_count) := by
  induction h with
  | init => exact ⟨rfl, rfl, rfl, fun h => absurd rfl h⟩
  | canExecute cb now _ ih =>
    obtain ⟨h1, h2, h3, h4⟩ := ih
    cases hst : cb.state <;> simp only [can_execute, hst]
    · exact ⟨h1, h2, h3, fun h => absurd hst (by simpa using h)⟩
    · split
      · exact ⟨h1, h2, h3, fun _ => h4 (by simp [hst])⟩
      · exact ⟨h1, h2, h3, fun _ => h4 (by simp [hst])⟩
    · exact ⟨h1, h2, h3, fun _ => h4 (by simp [hst])⟩
  | recSuccess cb _ ih =>
    obtain ⟨h1, h2, h3, h4⟩ := ih
    cases hst : cb.state <;> simp only [record_success, hst]
    · exact ⟨h1, h2, h3, fun h => absurd hst (by simpa using h)⟩
    · exact ⟨h1, h2, h3, fun _ => h4 (by simp [hst])⟩
    · split
      · exact ⟨h1, h2, h3, fun h => by simp at h⟩
      · exact ⟨h1, h2, h3, fun _ => h4 (by simp [hst])⟩
  | recFailure cb now _ ih =>
    obtain ⟨h1, h2, h3, h4⟩ := ih
    simp only [record_failure]
    split
    · rename_i hge
      simp only [h1] at hge
      exact ⟨h1, h2, h3, fun _ => by simpa using hge⟩
    · rename_i hlt
      simp only [h1, not_le] at hlt
      refine ⟨h1, h2, h3, fun h => ?_⟩
      simp only at h
      have := h4 h
      simp only
      omega

/-- Claim C3 counterexample: after five failures at instant 0 the breaker
is `OPEN`; at instant 61 the recovery timeout has elapsed and
`can_execute` allows a trial, moving to `HALF_OPEN`; but in `HALF_OPEN`,
`can_execute` neither mutates the breaker nor consumes any budget, so it
keeps returning true indefinitely before any outcome is recorded — the
claimed "at most 3 allowances before corresponding outcomes are recorded"
is violated by the fourth call. -/
theorem claim3_counterexample :
    cbAfterFive.state = CBState.open
    ∧ (can_execute cbAfterFive 61).1 = true
    ∧ cbHalfOpen.state = CBState.halfOpen
    ∧ can_execute cbHalfOpen 61 = (true, cbHalfOpen)
    ∧ (can_execute (can_execute (can_execute (can_execute cbHalfOpen 61).2
        61).2 61).2 61).1 = true := by
  refine ⟨rfl, rfl, rfl, by decide, by decide⟩

/-- Claim C3 (amended): the breaker state machine satisfies: after 5
consecutive `record_failure` calls (from any state, with threshold 5)
the breaker is `OPEN` and `can_execute` returns false while at most
`recovery_timeout` has passed since the last failure; once strictly more
than `recovery_timeout` has elapsed, `can_execute` returns true and moves
to `HALF_OPEN` with a zeroed trial counter; in `HALF_OPEN`, `can_execute`
returns true exactly while fewer than `half_open_max_calls` successes
have been recorded — it does not itself consume the budget (the budget is
consumed by `record_success`); 3 consecutive `record_success` calls in
`HALF_OPEN` restore `CLOSED` and zero the failure counter; a
`record_success` in `CLOSED` decrements the failure counter; a
`record_failure` in any reachable `HALF_OPEN` state returns to `OPEN` and
resets the recovery clock. -/
theorem claim3_amended :
    (∀ (cb : CircuitBreaker) (t1 t2 t3 t4 t5 now : Int),
      cb.failure_threshold = 5 → cb.recovery_timeout = 60 →
      (record_failure (record_failure (record_failure (record_failure
        (record_failure cb t1) t2) t3) t4) t5).state = CBState.open
      ∧ (now - t5 ≤ 60 →
        (can_execute (record_failure (record_failure (record_failure
          (record_failure (record_failure cb t1) t2) t3) t4) t5) now).1
          = false))
    ∧ (∀ (cb : CircuitBreaker) (t now : Int),
      cb.state = CBState.open → cb.last_failure_time = Option.some t →
      now - t > cb.recovery_timeout →
      can_execute cb now
        = (true, { cb with state := CBState.halfOpen, half_open_calls := 0 }))
    ∧ (∀ (cb : CircuitBreaker) (now : Int),
      cb.state = CBState.halfOpen →
      can_execute cb now
        = (decide (cb.half_open_calls < cb.half_open_max_calls), cb))
    ∧ (∀ cb : CircuitBreaker,
      cb.state = CBState.halfOpen → cb.half_open_calls = 0 →
      cb.half_open_max_calls = 3 →
      (record_success (record_success (record_success cb))).state
          = CBState.closed
      ∧ (record_success (record_success (record_success cb))).failure_count
          = 0)
    ∧ (∀ cb : CircuitBreaker,
      cb.state = CBState.closed →
      record_success cb = { cb with failure_count := cb.failure_count - 1 })
    ∧ (∀ (cb : CircuitBreaker) (now : Int),
      CBReachable cb → cb.state = CBState.halfOpen →
      (record_failure cb now).state = CBState.open
      ∧ (record_failure cb now).last_failure_time = Option.some now) := by
  refine ⟨?_, ?_, ?_, ?_, ?_, ?_⟩
  · intro cb t1 t2 t3 t4 t5 now hth hrt
    have c1 := (rf_fields cb t1).1
    have c2 := (rf_fields (record_failure cb t1) t2).1
    have c3 := (rf_fields (record_failure (record_failure cb t1) t2) t3).1
    have c4 := (rf_fields (record_failure (record_failure (record_failure
      cb t1) t2) t3) t4).1
    have p1 := (rf_fields cb t1).2.2
    have p2 := (rf_fields (record_failure cb t1) t2).2.2
    have p3 := (rf_fields (record_failure (record_failure cb t1) t2) t3).2.2
    have p4 := (rf_fields (record_failure (record_failure (record_failure
      cb t1) t2) t3) t4).2.2
    have hth4 : (record_failure (record_failure (record_failure
        (record_failure cb t1) t2) t3) t4).failure_threshold = 5 := by
      rw [p4.1, p3.1, p2.1, p1.1, hth]
    have hst : (record_failure (record_failure (record_failure
        (record_failure (record_failure cb t1) t2) t3) t4) t5).state
        = CBState.open := by
      apply rf_state_open
      rw [hth4, c4, c3, c2, c1]
      omega
    refine ⟨hst, fun hnow => ?_⟩
    have hlast := (rf_fields (record_failure (record_failure (record_failure
      (record_failure cb t1) t2) t3) t4) t5).2.1
    have hrt5 : (record_failure (record_failure (record_failure
        (record_failure (record_failure cb t1) t2) t3) t4) t5
        ).recovery_timeout = 60 := by
      have p5 := (rf_fields (record_failure (record_failure (record_failure
        (record_failure cb t1) t2) t3) t4) t5).2.2
      rw [p5.2.1, p4.2.1, p3.2.1, p2.2.1, p1.2.1, hrt]
    have hngt : ¬(now - t5 > 60) := by omega
    simp [can_execute, hst, should_attempt_reset, hlast, hrt5, hngt]
  · intro cb t now hst hlast hnow
    simp only [can_execute, hst, should_attempt_reset, hlast]
    rw [if_pos (by simpa using hnow)]
  · intro cb now hst
    simp only [can_execute, hst]
  · intro cb hst h0 h3
    simp only [record_success, hst, h0, h3]
    norm_num
  · intro cb hst
    simp only [record_success, hst]
  · intro cb now hreach hst
    have hinv := cb_reachable_invariant cb hreach
    have hcount := hinv.2.2.2 (by rw [hst]; simp)
    constructor
    · apply rf_state_open
      rw [hinv.1]
      omega
    · exact (rf_fields cb now).2.1

/-- Witness for `claim3_amended`. -/
theorem claim3_amended_witness :
    (can_execute cbAfterFive 10).1 = false
    ∧ (record_failure cbHalfOpen 100).state = CBState.open :=
  ⟨(claim3_amended.1 CircuitBreaker.init 0 0 0 0 0 10 rfl rfl).2 (by decide),
   (claim3_amended.2.2.2.2.2 cbHalfOpen 100
      (CBReachable.canExecute cbAfterFive 61
        (CBReachable.recFailure _ 0 (CBReachable.recFailure _ 0
          (CBReachable.recFailure _ 0 (CBReachable.recFailure _ 0
            (CBReachable.recFailure _ 0 CBReachable.init))))))
      rfl).1⟩

/-- The rate-limiter ceiling of every reachable state lies in `[10, 120]`
(and it starts at 60). -/
theorem rl_reachable_bounds (rl : AdaptiveRateLimiter) (h : RLReachable rl) :
    10 ≤ rl.requests_per_minute ∧ rl.requests_per_minute ≤ 120 := by
  induction h with
  | init t0 => exact ⟨by norm_num [AdaptiveRateLimiter.init], by
      norm_num [AdaptiveRateLimiter.init]⟩
  | canProceed rl now _ ih =>
    simp only [can_proceed]
    split <;> exact ih
  | recSuccess rl now _ ih =>
    simp only [rl_record_success]
    split
    · constructor <;> simp <;> omega
    · exact ih
  | recRateLimit rl _ ih =>
    simp only [record_rate_limit]
    constructor <;> simp <;> omega

/-- Claim C6: the adaptive ceiling starts at 60 and stays within
`[10, 120]` on every reachable state; the 10th consecutive success raises
it by 5 (capped at 120, strictly when below the cap) and zeroes the
consecutive-success counter; every rate-limit event lowers it by
`min(20, consecutive_rate_limits × 5)` (floored at 10, strictly when above
the floor) and zeroes consecutive successes. -/
theorem claim6_rate_limiter :
    (∀ t0 : Int, (AdaptiveRateLimiter.init t0).requests_per_minute = 60)
    ∧ (∀ rl : AdaptiveRateLimiter, RLReachable rl →
      10 ≤ rl.requests_per_minute ∧ rl.requests_per_minute ≤ 120)
    ∧ (∀ (rl : AdaptiveRateLimiter) (now : Int),
      rl.consecutive_successes = 9 →
      (rl_record_success rl now).requests_per_minute
        = min 120 (rl.requests_per_minute + 5)
      ∧ (rl_record_success rl now).consecutive_successes = 0
      ∧ (rl.requests_per_minute < 120 →
        rl.requests_per_minute
          < (rl_record_success rl now).requests_per_minute))
    ∧ (∀ rl : AdaptiveRateLimiter,
      (record_rate_limit rl).requests_per_minute
        = max 10 (rl.requests_per_minute
            - min 20 ((rl.consecutive_rate_limits + 1) * 5))
      ∧ (record_rate_limit rl).consecutive_successes = 0
      ∧ (record_rate_limit rl).consecutive_rate_limits
          = rl.consecutive_rate_limits + 1
      ∧ (10 < rl.requests_per_minute →
        (record_rate_limit rl).requests_per_minute
          < rl.requests_per_minute)) := by
  refine ⟨fun t0 => rfl, rl_reachable_bounds, ?_, ?_⟩
  · intro rl now h9
    simp only [rl_record_success, h9]
    norm_num
  · intro rl
    refine ⟨rfl, rfl, rfl, fun hgt => ?_⟩
    simp only [record_rate_limit]
    omega

/-- Witness for `claim6_rate_limiter`: the 10th success raises the fresh
limiter's ceiling from 60 to 65; a rate-limit event drops it to 55. -/
theorem claim6_witness :
    (rl_record_success
      { AdaptiveRateLimiter.init 0 with consecutive_successes := 9 }
      5).requests_per_minute = min 120 (60 + 5)
    ∧ (record_rate_limit (AdaptiveRateLimiter.init 0)).requests_per_minute
        < 60
    ∧ 10 ≤ (AdaptiveRateLimiter.init 0).requests_per_minute :=
  ⟨(claim6_rate_limiter.2.2.1
      { AdaptiveRateLimiter.init 0 with consecutive_successes := 9 } 5
      rfl).1,
   (claim6_rate_limiter.2.2.2 (AdaptiveRateLimiter.init 0)).2.2.2
      (by decide),
   (claim6_rate_limiter.2.1 (AdaptiveRateLimiter.init 0)
      (RLReachable.init 0)).1⟩

/-- The handler's event list is exactly `handlerEvts` (independent of the
run state and instants). -/
theorem handleException_evts_eq (jitter : Nat → Rat) (b m : Rat)
    (attempt : Nat) (now : Int) (st : RunState) (msg : String) :
    (handleException jitter b m attempt now st msg).2.1
      = handlerEvts jitter b m attempt msg := by
  simp only [handleException, handlerEvts]
  split
  · rfl
  · split
    · rfl
    · split
      · rfl
      · rfl

/-- Structure of the handler's event list. -/
theorem handlerEvts_props (jitter : Nat → Rat) (b m : Rat) (attempt : Nat)
    (msg : String) :
    (∀ e ∈ handlerEvts jitter b m attempt msg, tagOf e = attempt)
    ∧ (∀ a, ((handlerEvts jitter b m attempt msg).filter
        (isRecordEvt a)).length = if a = attempt then 1 else 0)
    ∧ (∀ a k, REvent.invoked a k ∉ handlerEvts jitter b m attempt msg)
    ∧ (∀ a, REvent.denied a ∉ handlerEvts jitter b m attempt msg)
    ∧ REvent.recFailure attempt ∈ handlerEvts jitter b m attempt msg := by
  simp only [handlerEvts]
  split
  · refine ⟨?_, ?_, ?_, ?_, ?_⟩
    · simp [tagOf]
    · intro a
      rcases eq_or_ne a attempt with rfl | hne
      · simp [isRecordEvt]
      · simp [isRecordEvt, hne]
    · simp
    · simp
    · simp
  · split
    · refine ⟨?_, ?_, ?_, ?_, ?_⟩
      · simp [tagOf]
      · intro a
        rcases eq_or_ne a attempt with rfl | hne
        · simp [isRecordEvt]
        · simp [isRecordEvt, hne]
      · simp
      · simp
      · simp
    · split
      · refine ⟨?_, ?_, ?_, ?_, ?_⟩
        · simp [tagOf]
        · intro a
          rcases eq_or_ne a attempt with rfl | hne
          · simp [isRecordEvt]
          · simp [isRecordEvt, hne]
        · simp
        · simp
        · simp
      · refine ⟨?_, ?_, ?_, ?_, ?_⟩
        · simp [tagOf]
        · intro a
          rcases eq_or_ne a attempt with rfl | hne
          · simp [isRecordEvt]
          · simp [isRecordEvt, hne]
        · simp
        · simp
        · simp

/-- The handler never emits invocation events. -/
theorem handlerEvts_no_invoked (jitter : Nat → Rat) (b m : Rat)
    (attempt : Nat) (msg : String) :
    (handlerEvts jitter b m attempt msg).filter isInvokedEvt = [] := by
  simp only [handlerEvts]
  split
  · simp [isInvokedEvt]
  · split
    · simp [isInvokedEvt]
    · split
      · simp [isInvokedEvt]
      · simp [isInvokedEvt]

/-- The handler does not touch the invocation counter. -/
theorem handleException_invocations (jitter : Nat → Rat) (b m : Rat)
    (attempt : Nat) (now : Int) (st : RunState) (msg : String) :
    (handleException jitter b m attempt now st msg).1.invocations
      = st.invocations := by
  simp only [handleException]
  split
  · rfl
  · split
    · rfl
    · split
      · rfl
      · rfl

theorem ite_snd {α β : Type} {c : Prop} [inst : Decidable c] (x y : α)
    (b : β) : (if c then (x, b) else (y, b)).2 = b := by
  split <;> rfl

/-- Per-attempt segment structure of the retry loop: every event of an
attempt's segment carries that attempt's tag; the segment records exactly
one breaker outcome for the attempt and none for any other; a denied
attempt invokes nothing and records a failure; and the invocation counter
advances by exactly the number of invocation events. -/
theorem runAttempt_seg (outcomes : Nat → Except String Val)
    (jitter : Nat → Rat) (times : Nat → Int) (b m : Rat) (attempt : Nat)
    (st : RunState) :
    (∀ e ∈ (runAttempt outcomes jitter times b m attempt st).2.2,
      tagOf e = attempt)
    ∧ (∀ a, ((runAttempt outcomes jitter times b m attempt st).2.2.filter
        (isRecordEvt a)).length = if a = attempt then 1 else 0)
    ∧ (REvent.denied attempt
        ∈ (runAttempt outcomes jitter times b m attempt st).2.2 →
      (∀ a k, REvent.invoked a k
        ∉ (runAttempt outcomes jitter times b m attempt st).2.2)
      ∧ REvent.recFailure attempt
        ∈ (runAttempt outcomes jitter times b m attempt st).2.2)
    ∧ (runAttempt outcomes jitter times b m attempt st).2.1.invocations
      = st.invocations
        + ((runAttempt outcomes jitter times b m attempt st).2.2.filter
            isInvokedEvt).length := by
  simp only [runAttempt]
  by_cases hallow : (can_execute st.breaker (times attempt)).1 = true
  · simp only [hallow, Bool.not_true, Bool.false_eq_true, if_false]
    rcases houtcome : outcomes st.invocations with msg | v
    · -- invocation raised
      simp only [houtcome, handleException_evts_eq, ite_snd,
        List.cons_append, List.nil_append, List.singleton_append]
      obtain ⟨hp1, hp2, hp3, hp4, hp5⟩ := handlerEvts_props jitter b m
        attempt msg
      have hni := handlerEvts_no_invoked jitter b m attempt msg
      have hinv := handleException_invocations jitter b m attempt
        (times attempt)
        { st with
          breaker := (can_execute st.breaker (times attempt)).2,
          limiter := (can_proceed st.limiter (times attempt)).2,
          invocations := st.invocations + 1 }
        msg
      by_cases hok : (can_proceed st.limiter (times attempt)).1 = true <;>
        simp only [hok, Bool.not_true, Bool.false_eq_true, if_false,
          Bool.not_false, if_true, List.cons_append, List.nil_append,
          List.singleton_append] <;>
        refine ⟨?_, ?_, ?_, ?_⟩
      · intro e he
        rcases List.mem_cons.mp he with rfl | he₂
        · simp [tagOf]
        · exact hp1 _ he₂
      · intro a
        simp only [List.filter_cons]
        have h1 : isRecordEvt a (REvent.invoked attempt st.invocations)
            = false := by simp [isRecordEvt]
        simp only [h1, Bool.false_eq_true, if_false, hp2 a]
      · intro hd
        exfalso
        rcases List.mem_cons.mp hd with heq | he₂
        · simp at heq
        · exact absurd he₂ (hp4 attempt)
      · simp only [List.filter_cons]
        have h1 : isInvokedEvt (REvent.invoked attempt st.invocations)
            = true := by simp [isInvokedEvt]
        simp only [h1, if_pos rfl, hni, hinv]
        simp
      · intro e he
        rcases List.mem_cons.mp he with rfl | he₂
        · simp [tagOf]
        · rcases List.mem_cons.mp he₂ with rfl | he₃
          · simp [tagOf]
          · exact hp1 _ he₃
      · intro a
        simp only [List.filter_cons]
        have h1 : isRecordEvt a (REvent.invoked attempt st.invocations)
            = false := by simp [isRecordEvt]
        have h2 : isRecordEvt a (REvent.sleptRateWait attempt
            (get_delay (can_proceed st.limiter (times attempt)).2
              (times attempt))) = false := by simp [isRecordEvt]
        simp only [h1, h2, Bool.false_eq_true, if_false, hp2 a]
      · intro hd
        exfalso
        rcases List.mem_cons.mp hd with heq | he₂
        · simp at heq
        · rcases List.mem_cons.mp he₂ with heq | he₃
          · simp at heq
          · exact absurd he₃ (hp4 attempt)
      · simp only [List.filter_cons]
        have h1 : isInvokedEvt (REvent.invoked attempt st.invocations)
            = true := by simp [isInvokedEvt]
        have h2 : isInvokedEvt (REvent.sleptRateWait attempt
            (get_delay (can_proceed st.limiter (times attempt)).2
              (times attempt))) = false := by simp [isInvokedEvt]
        simp only [h1, h2, Bool.false_eq_true, if_false, if_pos rfl, hni,
          hinv]
        simp
    · -- invocation succeeded
      simp only [houtcome]
      by_cases hok : (can_proceed st.limiter (times attempt)).1 = true <;>
        simp only [hok, Bool.not_true, Bool.false_eq_true, if_false,
          Bool.not_false, if_true, List.cons_append, List.nil_append,
          List.singleton_append] <;>
        refine ⟨?_, ?_, ?_, ?_⟩
      · simp [tagOf]
      · intro a
        rcases eq_or_ne a attempt with rfl | hne
        · simp [isRecordEvt]
        · simp [isRecordEvt, hne]
      · simp
      · simp [isInvokedEvt]
      · simp [tagOf]
      · intro a
        rcases eq_or_ne a attempt with rfl | hne
        · simp [isRecordEvt]
        · simp [isRecordEvt, hne]
      · simp
      · simp [isInvokedEvt]
  · -- denied
    simp only [Bool.not_eq_true] at hallow
    simp only [hallow, Bool.not_false, eq_self_iff_true, if_true,
      handleException_evts_eq, ite_snd]
    obtain ⟨hp1, hp2, hp3, hp4, hp5⟩ := handlerEvts_props jitter b m attempt
      circuitBreakerMsg
    have hni := handlerEvts_no_invoked jitter b m attempt circuitBreakerMsg
    have hinv := handleException_invocations jitter b m attempt
      (times attempt)
      { st with breaker := (can_execute st.breaker (times attempt)).2 }
      circuitBreakerMsg
    refine ⟨?_, ?_, ?_, ?_⟩
    · intro e he
      rcases List.mem_cons.mp he with rfl | he₂
      · simp [tagOf]
      · exact hp1 _ he₂
    · intro a
      simp only [List.filter_cons]
      have h1 : isRecordEvt a (REvent.denied attempt) = false := by
        simp [isRecordEvt]
      simp only [h1, Bool.false_eq_true, if_false, hp2 a]
    · intro hd
      refine ⟨fun a k hmem => ?_, List.mem_cons_of_mem _ hp5⟩
      rcases List.mem_cons.mp hmem with heq | he₂
      · simp at heq
      · exact absurd he₂ (hp3 a k)
    · simp only [List.filter_cons]
      have h1 : isInvokedEvt (REvent.denied attempt) = false := by
        simp [isInvokedEvt]
      simp only [h1, Bool.false_eq_true, if_false, hni, hinv]
      simp

theorem isRecordEvt_tag (a : Nat) (e : REvent) (h : isRecordEvt a e = true) :
    tagOf e = a := by
  cases e <;> simp [isRecordEvt, tagOf] at h ⊢ <;> omega

/-- Global trace structure of a retry run: every event belongs to an
attempt at or after the starting one; at most one breaker record per
attempt; a denied attempt has no invocation, records exactly one failure;
and the invocation counter advances by the number of invocation events. -/
theorem retryGo_trace (outcomes : Nat → Except String Val)
    (jitter : Nat → Rat) (times : Nat → Int) (b m : Rat) :
    ∀ (fuel attempt : Nat) (st : RunState) (last : Option String),
    (∀ e ∈ (retryGo outcomes jitter times b m attempt fuel st last).2.2,
      attempt ≤ tagOf e)
    ∧ (∀ a, ((retryGo outcomes jitter times b m attempt fuel st
        last).2.2.filter (isRecordEvt a)).length ≤ 1)
    ∧ (∀ a, REvent.denied a
        ∈ (retryGo outcomes jitter times b m attempt fuel st last).2.2 →
      (∀ k, REvent.invoked a k
        ∉ (retryGo outcomes jitter times b m attempt fuel st last).2.2)
      ∧ REvent.recFailure a
        ∈ (retryGo outcomes jitter times b m attempt fuel st last).2.2
      ∧ ((retryGo outcomes jitter times b m attempt fuel st
          last).2.2.filter (isRecordEvt a)).length = 1)
    ∧ (retryGo outcomes jitter times b m attempt fuel st
        last).2.1.invocations
      = st.invocations
        + ((retryGo outcomes jitter times b m attempt fuel st
            last).2.2.filter isInvokedEvt).length := by
  intro fuel
  induction fuel with
  | zero =>
    intro attempt st last
    refine ⟨?_, ?_, ?_, ?_⟩ <;> simp [retryGo]
  | succ fuel ih =>
    intro attempt st last
    obtain ⟨hs1, hs2, hs3, hs4⟩ := runAttempt_seg outcomes jitter times b m
      attempt st
    rcases hRA : runAttempt outcomes jitter times b m attempt st with
      ⟨ar, st2, seg⟩
    rw [hRA] at hs1 hs2 hs3 hs4
    simp only at hs1 hs2 hs3 hs4
    rcases ar with r | msg
    · -- done: the trace is just this attempt's segment
      simp only [retryGo, hRA]
      refine ⟨fun e he => le_of_eq (hs1 e he).symm, fun a => ?_, ?_, hs4⟩
      · rw [hs2 a]
        split <;> omega
      · intro a hd
        have ha : a = attempt := by
          have := hs1 _ hd
          simpa [tagOf] using this
        subst ha
        obtain ⟨hni, hrf⟩ := hs3 hd
        exact ⟨fun k => hni a k, hrf, by rw [hs2 a]; simp⟩
    · -- next: segment followed by the rest of the run
      rcases hRG : retryGo outcomes jitter times b m (attempt + 1) fuel st2
        (Option.some msg) with ⟨r2, st3, rest⟩
      obtain ⟨ih1, ih2, ih3, ih4⟩ := ih (attempt + 1) st2 (Option.some msg)
      rw [hRG] at ih1 ih2 ih3 ih4
      simp only at ih1 ih2 ih3 ih4
      simp only [retryGo, hRA, hRG, List.mem_append, List.filter_append,
        List.length_append]
      have hrest0 : ∀ a, a = attempt →
          rest.filter (isRecordEvt a) = [] := by
        intro a ha
        rw [List.filter_eq_nil_iff]
        intro e he hrec
        have htag := isRecordEvt_tag a e hrec
        have hge := ih1 e he
        omega
      refine ⟨?_, ?_, ?_, ?_⟩
      · intro e he
        rcases he with he | he
        · exact le_of_eq (hs1 e he).symm
        · exact le_trans (Nat.le_succ attempt) (ih1 e he)
      · intro a
        rcases eq_or_ne a attempt with rfl | hne
        · rw [hs2 a, hrest0 a rfl]
          simp
        · rw [hs2 a]
          simp only [if_neg hne]
          have := ih2 a
          omega
      · intro a hd
        rcases hd with hd | hd
        · have ha : a = attempt := by
            have := hs1 _ hd
            simpa [tagOf] using this
          subst ha
          obtain ⟨hni, hrf⟩ := hs3 hd
          refine ⟨fun k => ?_, Or.inl hrf, ?_⟩
          · intro hmem
            rcases hmem with hm | hm
            · exact absurd hm (hni a k)
            · have := ih1 _ hm
              simp [tagOf] at this
          · rw [hs2 a, hrest0 a rfl]
            simp
        · have ha : attempt + 1 ≤ a := by
            have := ih1 _ hd
            simpa [tagOf] using this
          obtain ⟨hni, hrf, hcount⟩ := ih3 a hd
          refine ⟨fun k => ?_, Or.inr hrf, ?_⟩
          · intro hmem
            rcases hmem with hm | hm
            · have := hs1 _ hm
              simp [tagOf] at this
              omega
            · exact absurd hm (hni k)
          · rw [hs2 a, hcount]
            have hne : a ≠ attempt := by omega
            simp [hne]
      · rw [hs4] at *
        omega

theorem isPrefixL_map (f : Char → Char) (p l : List Char)
    (h : isPrefixL p l = true) : isPrefixL (p.map f) (l.map f) = true := by
  induction p generalizing l with
  | nil => rfl
  | cons a as ih =>
    cases l with
    | nil => simp [isPrefixL] at h
    | cons b bs =>
      simp only [isPrefixL, Bool.and_eq_true, beq_iff_eq] at h
      simp only [List.map, isPrefixL, Bool.and_eq_true, beq_iff_eq]
      exact ⟨by rw [h.1], ih bs h.2⟩

theorem isSubstrL_map (f : Char → Char) (p l : List Char)
    (h : isSubstrL p l = true) : isSubstrL (p.map f) (l.map f) = true := by
  induction l with
  | nil =>
    cases p with
    | nil => rfl
    | cons c cs => simp [isSubstrL] at h
  | cons c cs ih =>
    simp only [isSubstrL, Bool.or_eq_true] at h
    rcases h with h | h
    · simp only [List.map, isSubstrL, Bool.or_eq_true]
      exact Or.inl (isPrefixL_map f p (c :: cs) h)
    · simp only [List.map, isSubstrL, Bool.or_eq_true]
      exact Or.inr (ih h)

/-- Containment of an all-lowercase keyword survives `lower()`. -/
theorem pyContains_lower (msg kw : String)
    (hkw : kw.data.map Char.toLower = kw.data)
    (h : pyContains msg kw = true) : pyContains (pyLower msg) kw = true := by
  simp only [pyContains, pyLower] at h ⊢
  rw [← hkw]
  exact isSubstrL_map Char.toLower _ _ h

/-- Claim C5 counterexample: the breaker is already open (five failures at
instant 0); a `with_retry` run at instant 10 denies its only attempt: the
wrapped operation is never invoked, yet `record_failure()` IS recorded for
that attempt — contradicting "record_success()/record_failure() are
invoked ... not for attempts on which the underlying operation was never
invoked". -/
theorem claim5_counterexample :
    REvent.denied 0 ∈ deniedRun.2.2
    ∧ deniedRun.2.2.filter isInvokedEvt = []
    ∧ deniedRun.2.1.invocations = 0
    ∧ REvent.recFailure 0 ∈ deniedRun.2.2 := by
  refine ⟨by decide, by decide, by decide, by decide⟩

/-- Claim C5 (amended): on an attempt where `can_execute()` returns false
the wrapped operation is not invoked and an exception carrying the
breaker-open message is raised; the attempt still counts against the
retry budget, and exactly one breaker record call happens per attempt —
including, contrary to the original claim, denied attempts, whose
breaker-open exception is caught by the generic handler and recorded as a
failure (classified "unknown", since the message matches no keyword
list). The invocation counter advances by exactly the number of actual
invocations. -/
theorem claim5_amended (outcomes : Nat → Except String Val)
    (jitter : Nat → Rat) (times : Nat → Int) (max_retries : Nat)
    (base_delay max_delay : Rat) (st : RunState) :
    (∀ a, REvent.denied a
        ∈ (with_retry outcomes jitter times max_retries base_delay
            max_delay st).2.2 →
      (∀ k, REvent.invoked a k
        ∉ (with_retry outcomes jitter times max_retries base_delay
            max_delay st).2.2)
      ∧ REvent.recFailure a
        ∈ (with_retry outcomes jitter times max_retries base_delay
            max_delay st).2.2
      ∧ ((with_retry outcomes jitter times max_retries base_delay
          max_delay st).2.2.filter (isRecordEvt a)).length = 1)
    ∧ (∀ a, ((with_retry outcomes jitter times max_retries base_delay
        max_delay st).2.2.filter (isRecordEvt a)).length ≤ 1)
    ∧ (with_retry outcomes jitter times max_retries base_delay
        max_delay st).2.1.invocations
      = st.invocations
        + ((with_retry outcomes jitter times max_retries base_delay
            max_delay st).2.2.filter isInvokedEvt).length
    ∧ classify_error circuitBreakerMsg = "unknown" := by
  obtain ⟨h1, h2, h3, h4⟩ := retryGo_trace outcomes jitter times base_delay
    max_delay max_retries 0 st Option.none
  exact ⟨fun a hd => h3 a hd, h2, h4, by decide⟩

/-- Witness for `claim5_amended`, instantiated on the denied run. -/
theorem claim5_amended_witness :
    (deniedRun.2.2.filter (isRecordEvt 0)).length = 1
    ∧ deniedRun.2.1.invocations
      = 0 + (deniedRun.2.2.filter isInvokedEvt).length :=
  ⟨((claim5_amended (fun _ => Except.ok Val.none) (fun _ => 0)
      (fun _ => 10) 1 1 60
      { breaker := cbAfterFive, limiter := AdaptiveRateLimiter.init 10,
        invocations := 0 }).1 0 (by decide)).2.2,
   (claim5_amended (fun _ => Except.ok Val.none) (fun _ => 0)
      (fun _ => 10) 1 1 60
      { breaker := cbAfterFive, limiter := AdaptiveRateLimiter.init 10,
        invocations := 0 }).2.2.1⟩

/-- Claim C7: classification is a pure function of the message — any
message containing "rate limit" (likewise "throttled", "quota exceeded")
classifies `rate_limit` and, when the wrapped call raises it, the wrapper
selects the exponential-with-jitter backoff
`min(base·2^attempt + jitter, max_delay)` before retrying; a message
matching a permanent keyword ("not found", "authentication", "forbidden",
"invalid") and no rate-limit or transient keyword classifies `permanent`:
the wrapper aborts after the single invocation, sleeps for no backoff,
and propagates the error. -/
theorem claim7_classification :
    (∀ msg : String,
      (pyContains msg "rate limit" = true ∨ pyContains msg "throttled" = true
        ∨ pyContains msg "quota exceeded" = true) →
      classify_error msg = "rate_limit")
    ∧ (∀ (msg : String) (outcomes : Nat → Except String Val)
        (jitter : Nat → Rat) (times : Nat → Int) (b m : Rat) (mr : Nat),
      classify_error msg = "rate_limit" →
      outcomes 0 = Except.error msg → 1 ≤ mr →
      REvent.sleptRateLimit 0 (min (b * 2 ^ (0 : Nat) + jitter 0) m)
        ∈ (with_retry outcomes jitter times mr b m
            (initRunState (times 0))).2.2
      ∧ REvent.invoked 0 0
        ∈ (with_retry outcomes jitter times mr b m
            (initRunState (times 0))).2.2)
    ∧ (∀ msg : String,
      containsAnyKeyword (pyLower msg) permanentKeywords = true →
      containsAnyKeyword (pyLower msg) rateLimitKeywords = false →
      containsAnyKeyword (pyLower msg) transientKeywords = false →
      classify_error msg = "permanent")
    ∧ (∀ (msg : String) (outcomes : Nat → Except String Val)
        (jitter : Nat → Rat) (times : Nat → Int) (b m : Rat) (mr : Nat),
      classify_error msg = "permanent" →
      outcomes 0 = Except.error msg → 1 ≤ mr →
      (with_retry outcomes jitter times mr b m
          (initRunState (times 0))).1
        = Except.error (Option.some msg)
      ∧ (with_retry outcomes jitter times mr b m
          (initRunState (times 0))).2.2
        = [REvent.invoked 0 0, REvent.recFailure 0]
      ∧ (with_retry outcomes jitter times mr b m
          (initRunState (times 0))).2.1.invocations = 1) := by
  have hcekw : ∀ (msg kw : String), kw ∈ rateLimitKeywords →
      kw.data.map Char.toLower = kw.data →
      pyContains msg kw = true → classify_error msg = "rate_limit" := by
    intro msg kw hkw hlow h
    have h2 := pyContains_lower msg kw hlow h
    simp only [classify_error]
    rw [if_pos]
    exact List.any_eq_true.mpr ⟨kw, hkw, h2⟩
  refine ⟨?_, ?_, ?_, ?_⟩
  · intro msg h
    rcases h with h | h | h
    · exact hcekw msg "rate limit" (by decide) (by decide) h
    · exact hcekw msg "throttled" (by decide) (by decide) h
    · exact hcekw msg "quota exceeded" (by decide) (by decide) h
  · intro msg outcomes jitter times b m mr hcl hout hmr
    cases mr with
    | zero => omega
    | succ mr =>
      have hce : can_execute CircuitBreaker.init (times 0)
          = (true, CircuitBreaker.init) := rfl
      have hcp : can_proceed (AdaptiveRateLimiter.init (times 0)) (times 0)
          = (true, AdaptiveRateLimiter.init (times 0)) := by
        simp [can_proceed, AdaptiveRateLimiter.init]
      constructor <;>
        simp [with_retry, retryGo, runAttempt, initRunState, hce, hcp, hout,
          handleException, hcl]
  · intro msg hperm hrate htrans
    simp only [classify_error, containsAnyKeyword] at hperm hrate htrans ⊢
    rw [if_neg (by simp [hrate]), if_neg (by simp [htrans]), if_pos hperm]
  · intro msg outcomes jitter times b m mr hcl hout hmr
    cases mr with
    | zero => omega
    | succ mr =>
      have hce : can_execute CircuitBreaker.init (times 0)
          = (true, CircuitBreaker.init) := rfl
      have hcp : can_proceed (AdaptiveRateLimiter.init (times 0)) (times 0)
          = (true, AdaptiveRateLimiter.init (times 0)) := by
        simp [can_proceed, AdaptiveRateLimiter.init]
      refine ⟨?_, ?_, ?_⟩ <;>
        simp [with_retry, retryGo, runAttempt, initRunState, hce, hcp, hout,
          handleException, hcl]

/-- Witness for `claim7_classification` on concrete messages. -/
theorem claim7_witness :
    classify_error "API rate limit exceeded" = "rate_limit"
    ∧ REvent.sleptRateLimit 0 (min ((1 : Rat) * 2 ^ (0 : Nat) + 0) 60)
      ∈ (with_retry (fun _ => Except.error "API rate limit exceeded")
          (fun _ => 0) (fun _ => 0) 1 1 60 (initRunState 0)).2.2
    ∧ classify_error "Resource not found" = "permanent"
    ∧ (with_retry (fun _ => Except.error "Resource not found") (fun _ => 0)
        (fun _ => 0) 5 1 60 (initRunState 0)).1
      = Except.error (Option.some "Resource not found") :=
  ⟨claim7_classification.1 "API rate limit exceeded" (Or.inl (by decide)),
   (claim7_classification.2.1 "API rate limit exceeded"
      (fun _ => Except.error "API rate limit exceeded") (fun _ => 0)
      (fun _ => 0) 1 60 1 (by decide) rfl (by decide)).1,
   claim7_classification.2.2.1 "Resource not found" (by decide) (by decide)
      (by decide),
   (claim7_classification.2.2.2 "Resource not found"
      (fun _ => Except.error "Resource not found") (fun _ => 0) (fun _ => 0)
      1 60 5 (by decide) rfl (by decide)).1⟩

/-- Claim C9 failing input: a Redis-backed job whose handler fails four
times with `max_retries = 3` is still `queued` with `retry_count = 0`
(the worker increments a local deserialized copy, then `update_job_status`
re-reads the store and persists the stale count, so the retry budget never
decreases and the job re-queues forever), whereas the in-memory fallback -
which mutates the shared object - ends `failed` with `retry_count = 3` as
the claim describes. -/
theorem claim9_failing_input :
    (get_job_status redisQueueAfterFourFailures "j1").map
        (fun j => (j.status, j.retry_count))
      = Option.some (JobStatus.queued, 0)
    ∧ (get_job_status memQueueAfterFourFailures "j1").map
        (fun j => (j.status, j.retry_count))
      = Option.some (JobStatus.failed, 3) := by
  exact ⟨by decide, by decide⟩
